import Mathlib

/-!
Shallow embedding of the GetVybz escrow/ledger core.

Each namespace mirrors one service file of the repository:
* `EscrowSvc`   — src/services/escrowService.js (recordTransaction, handleWebhook
  success/failure branches, releaseFunds, reconcileEscrows), over the
  Transaction / Escrow / Booking document shapes of src/models.
* `SettleSvc`   — src/services/escrowSettlementService.js (settleEscrow), over
  the stored Escrow/Booking schema paths; the service addresses several paths
  the schemas do not define (escrow.status, escrow.amountHeld,
  escrow.releasedAt, booking.completedAt), so those reads are undefined and
  strict mode drops the writes, which the embedding reflects.
* `DisputeSvc`  — src/services/disputeService.js (createDispute, resolveDispute)
  together with the schema validation of src/models/Dispute.js (required
  initiatorId/respondentId, resolution enum) and the Booking status enum.
* `ReconSvc`    — src/services/reconciliationService.js (reconcileTransactions).

External collaborators (payment gateway HTTP calls, signature checks,
notifications, trust-score recomputation) are parameters or are omitted, as the
spec treats them as opaque capabilities.  Mongo stores are lists of records;
`save` is replace-by-id; the unique index on Transaction.reference is modelled
where a service inserts by a fixed reference.  JavaScript `a || b` on numbers
and strings treats 0 and "" as falsy; the `jsOr*` helpers reproduce that.
-/

namespace EscrowSvc

/-- Transaction ledger entry (src/models/Transaction.js). -/
structure Txn where
  bookingId : Option Nat
  customerId : Option Nat
  creativeId : Option Nat
  amount : Int
  ttype : String
  status : String
  paymentGateway : String
  reference : Option String
  note : String
deriving Repr, DecidableEq

/-- Escrow document (src/models/Escrow.js). -/
@[ext]
structure EscrowDoc where
  id : Nat
  bookingId : Nat
  amount : Int
  state : String
  paymentGateway : String
  gatewayReference : Option String
  initiatedBy : Option Nat
  reconciled : Bool
deriving Repr, DecidableEq

/-- Booking document, payment-facing fields only (src/models/Booking.js). -/
@[ext]
structure BookingDoc where
  id : Nat
  customerId : Option Nat
  creativeId : Option Nat
  totalAmount : Int
  escrowAmount : Option Int
  status : String
  paymentStatus : String
  paymentGateway : Option String
  escrowId : Option Nat
deriving Repr, DecidableEq

/-- Database state seen by escrowService; `nextId` supplies fresh Escrow ids. -/
structure EscrowSt where
  ledger : List Txn
  escrows : List EscrowDoc
  bookings : List BookingDoc
  nextId : Nat
deriving Repr, DecidableEq

/-- JavaScript `a || b` for a possibly-null number: null and 0 are falsy. -/
def jsOrI : Option Int → Int → Int
  | some v, d => if v = 0 then d else v
  | none, d => d

/-- JavaScript `a || b` where both sides are possibly-null numbers. -/
def jsOrO : Option Int → Option Int → Option Int
  | some v, b => if v = 0 then b else some v
  | none, b => b

/-- JavaScript `a || b` for a possibly-null string: null and "" are falsy. -/
def jsOrS : Option String → String → String
  | some s, d => if s = "" then d else s
  | none, d => d

/-- JavaScript `String.prototype.toLowerCase` (ASCII), written over the
character list so that it reduces in the kernel. -/
def toLowerStr (s : String) : String := ⟨s.data.map Char.toLower⟩

def findTxnByRef (ledger : List Txn) (r : String) : Option Txn :=
  ledger.find? (fun t => decide (t.reference = some r))

def findBooking (st : EscrowSt) (bid : Nat) : Option BookingDoc :=
  st.bookings.find? (fun b => decide (b.id = bid))

def findEscrowByBooking (st : EscrowSt) (bid : Nat) : Option EscrowDoc :=
  st.escrows.find? (fun e => decide (e.bookingId = bid))

def findEscrowByRef (st : EscrowSt) (r : String) : Option EscrowDoc :=
  st.escrows.find? (fun e => decide (e.gatewayReference = some r))

/-- `document.save()` — replace the stored escrow with the same `_id`. -/
def saveEscrow (st : EscrowSt) (e : EscrowDoc) : EscrowSt :=
  { st with escrows := st.escrows.map (fun x => if x.id = e.id then e else x) }

/-- `document.save()` — replace the stored booking with the same `_id`. -/
def saveBooking (st : EscrowSt) (b : BookingDoc) : EscrowSt :=
  { st with bookings := st.bookings.map (fun x => if x.id = b.id then b else x) }

/-- escrowService recordTransaction: idempotent by reference — if a Transaction
with this reference exists it is returned as stored and nothing is written;
otherwise the new record is saved. -/
def recordTransaction (ledger : List Txn) (t : Txn) : Txn × List Txn :=
  match t.reference with
  | some r =>
    match findTxnByRef ledger r with
    | some existing => (existing, ledger)
    | none => (t, ledger ++ [t])
  | none => (t, ledger ++ [t])

/-- Normalized webhook payload after signature check and event classification:
the external reference, the optional `metadata.bookingId`, the amount reported
by the gateway verify endpoint (null when verification failed), the amount in
the webhook body (already converted from kobo), and the gateway name. -/
structure WebhookIn where
  reference : String
  bookingIdMeta : Option Nat
  verifyAmount : Option Int
  dataAmount : Option Int
  gateway : String
deriving Repr, DecidableEq

/-- handleWebhook lines 362-375: resolve the target booking and escrow, by
`metadata.bookingId` when present, otherwise by `gatewayReference`. -/
def resolveTarget (w : WebhookIn) (st : EscrowSt) : Option BookingDoc × Option EscrowDoc :=
  match w.bookingIdMeta with
  | some bid =>
    match findBooking st bid with
    | none => (none, none)
    | some b => (some b, findEscrowByBooking st b.id)
  | none =>
    match findEscrowByRef st w.reference with
    | none => (none, none)
    | some e => (findBooking st e.bookingId, some e)

/-- handleWebhook lines 377-392: when a booking was found but no escrow exists,
`findOneAndUpdate` upserts a pending escrow with `$setOnInsert` fields. -/
def preUpsert (w : WebhookIn) (st : EscrowSt) :
    Option BookingDoc × Option EscrowDoc × EscrowSt :=
  match resolveTarget w st with
  | (some b, none) =>
    let e : EscrowDoc :=
      { id := st.nextId
        bookingId := b.id
        amount := jsOrI b.escrowAmount b.totalAmount
        state := "pending"
        paymentGateway := w.gateway
        gatewayReference := some w.reference
        initiatedBy := none
        reconciled := false }
    (some b, some e, { st with escrows := st.escrows ++ [e], nextId := st.nextId + 1 })
  | (some b, some e) => (some b, some e, st)
  | (none, eo) => (none, eo, st)

/-- handleWebhook lines 399-409: `verifyResult?.amount || (data?.amount ? ... : null)`. -/
def verifiedAmount (w : WebhookIn) : Option Int :=
  jsOrO w.verifyAmount w.dataAmount

/-- handleWebhook success branch after the already-processed check
(lines 424-473): record a success Transaction through `recordTransaction`,
set the escrow to `held`, and update the booking projection fields. -/
def mainSuccess (w : WebhookIn) (bo : Option BookingDoc) (eo : Option EscrowDoc)
    (st : EscrowSt) : (Bool × String) × EscrowSt :=
  let newTx : Txn :=
    { bookingId :=
        match bo with
        | some b => some b.id
        | none => eo.map (fun e => e.bookingId)
      customerId := bo.bind (fun b => b.customerId)
      creativeId := bo.bind (fun b => b.creativeId)
      amount := jsOrI (verifiedAmount w) (jsOrI w.dataAmount 0)
      ttype := "escrow"
      status := "success"
      paymentGateway := w.gateway
      reference := some w.reference
      note := "webhook_success" }
  let st1 : EscrowSt := { st with ledger := (recordTransaction st.ledger newTx).2 }
  let r2 : Option EscrowDoc × EscrowSt :=
    match eo, bo with
    | none, some b =>
      let e : EscrowDoc :=
        { id := st1.nextId
          bookingId := b.id
          amount := jsOrI (verifiedAmount w) (jsOrI b.escrowAmount b.totalAmount)
          state := "held"
          paymentGateway := w.gateway
          gatewayReference := some w.reference
          initiatedBy := none
          reconciled := false }
      (some e, { st1 with escrows := st1.escrows ++ [e], nextId := st1.nextId + 1 })
    | some e, _ =>
      let e2 : EscrowDoc :=
        { e with
            state := "held"
            gatewayReference := some w.reference
            amount := jsOrI (verifiedAmount w) e.amount }
      (some e2, saveEscrow st1 e2)
    | none, none => (none, st1)
  let st3 : EscrowSt :=
    match bo with
    | some b =>
      let b2 : BookingDoc :=
        { b with
            paymentStatus := "escrowed"
            escrowAmount :=
              some (jsOrI (r2.1.map (fun e => e.amount)) (jsOrI b.escrowAmount b.totalAmount))
            paymentGateway := some w.gateway
            escrowId :=
              match r2.1 with
              | some e => some e.id
              | none => b.escrowId
            status := if b.status = "pending" then "confirmed" else b.status }
      saveBooking r2.2 b2
    | none => r2.2
  ((true, ""), st3)

/-- handleWebhook, success event end to end (signature verified, event
classified as success): resolve, upsert, already-processed short-circuit when a
`success` Transaction with this reference exists, otherwise the main path. -/
def deliverSuccess (w : WebhookIn) (st : EscrowSt) : (Bool × String) × EscrowSt :=
  match preUpsert w st with
  | (bo, eo, st1) =>
    match findTxnByRef st1.ledger w.reference with
    | some tx =>
      if tx.status = "success" then ((true, "already_processed"), st1)
      else mainSuccess w bo eo st1
    | none => mainSuccess w bo eo st1

/-- handleWebhook failure branch (lines 486-519): record a failed Transaction,
set booking.paymentStatus to failed, set the escrow to cancelled. -/
def deliverFailure (w : WebhookIn) (st : EscrowSt) : (Bool × String) × EscrowSt :=
  match preUpsert w st with
  | (bo, eo, st1) =>
    let newTx : Txn :=
      { bookingId :=
          match bo with
          | some b => some b.id
          | none => eo.map (fun e => e.bookingId)
        customerId := bo.bind (fun b => b.customerId)
        creativeId := bo.bind (fun b => b.creativeId)
        amount := jsOrI w.dataAmount 0
        ttype := "escrow"
        status := "failed"
        paymentGateway := w.gateway
        reference := some w.reference
        note := "webhook_failed" }
    let st2 : EscrowSt := { st1 with ledger := (recordTransaction st1.ledger newTx).2 }
    let st3 : EscrowSt :=
      match bo with
      | some b => saveBooking st2 { b with paymentStatus := "failed" }
      | none => st2
    let st4 : EscrowSt :=
      match eo with
      | some e => saveEscrow st3 { e with state := "cancelled" }
      | none => st3
    ((true, "failure"), st4)

/-- Result of the gateway payout adapter call. -/
structure PayoutRes where
  success : Bool
  dataRef : Option String
deriving Repr, DecidableEq

/-- escrowService.releaseFunds (lines 538-610).  `genRef` models the generated
`REL-...` reference and `payout` the adapter result; on a thrown error the
surrounding mongoose session is aborted, so the state is returned unchanged. -/
def releaseFunds (st : EscrowSt) (bookingId : Nat) (initiatedBy : Option Nat)
    (note : String) (genRef : String) (payout : PayoutRes) :
    Except String (Bool × String) × EscrowSt :=
  match findBooking st bookingId with
  | none => (.error "Booking not found", st)
  | some b =>
    match findEscrowByBooking st b.id with
    | none => (.error "Escrow record not found for booking", st)
    | some e =>
      if e.state = "held" ∨ e.state = "pending" ∨ e.state = "disputed" then
        let amount := jsOrI (some e.amount) (jsOrI b.escrowAmount b.totalAmount)
        let gateway := jsOrS (some e.paymentGateway) (jsOrS b.paymentGateway "paystack")
        let txRef := jsOrS payout.dataRef genRef
        let relTx : Txn :=
          { bookingId := some b.id
            customerId := b.customerId
            creativeId := b.creativeId
            amount := amount
            ttype := "release"
            status := if payout.success then "success" else "failed"
            paymentGateway := gateway
            reference := some txRef
            note := jsOrS (some note) "release" }
        let st1 : EscrowSt := { st with ledger := (recordTransaction st.ledger relTx).2 }
        let e2 : EscrowDoc :=
          { e with
              state := if payout.success then "released" else "disputed"
              initiatedBy := initiatedBy }
        let st2 := saveEscrow st1 e2
        let b2 : BookingDoc :=
          { b with
              paymentStatus := if payout.success then "released" else b.paymentStatus
              status := if payout.success then "completed" else b.status }
        let st3 := saveBooking st2 b2
        (.ok (payout.success, txRef), st3)
      else (.error "Escrow not in releasable state", st)

/-- escrowService.reconcileEscrows, one escrow (lines 704-729).  `verify r`
is the gateway verify call: `none` models a thrown error (caught, no write),
otherwise the reported status string. -/
def reconcileStep (verify : String → Option String) (e : EscrowDoc) : EscrowDoc :=
  if e.reconciled then e
  else
    match e.gatewayReference with
    | none => e
    | some r =>
      match verify r with
      | none => e
      | some vs =>
        if toLowerStr vs = "success" ∧ ¬(e.state = "held" ∨ e.state = "released") then
          { e with state := "held", reconciled := true }
        else { e with reconciled := true }

/-- escrowService.reconcileEscrows (lines 695-735): apply the per-escrow
reconciliation to every stored escrow that is not yet reconciled. -/
def reconcileEscrows (verify : String → Option String) (st : EscrowSt) : EscrowSt :=
  { st with escrows := st.escrows.map (reconcileStep verify) }

end EscrowSvc

namespace SettleSvc

/-- Escrow document as stored: the Escrow schema (src/models/Escrow.js)
defines `state` and `amount`.  escrowSettlementService reads `escrow.status`
and `escrow.amountHeld` and writes `escrow.status`/`escrow.releasedAt`, none
of which are schema paths: the reads are undefined and strict mode drops the
writes on save. -/
structure SEscrow where
  id : Nat
  bookingId : Nat
  amount : Int
  state : String
deriving Repr, DecidableEq

/-- Booking fields consumed by settleEscrow.  The Booking schema has no
`completedAt` path, so that read is undefined and the `||` chain falls through
to the timestamps-managed `updatedAt`, which every stored document carries. -/
structure SBooking where
  id : Nat
  customerId : Nat
  proId : Nat
  updatedAt : Int
  customerReviewed : Bool
  proReviewed : Bool
  paymentReleased : Bool
  settledAt : Option Int
deriving Repr, DecidableEq

/-- Payout ledger entry settleEscrow attempts to create. -/
structure STxn where
  bookingId : Nat
  userId : Nat
  ttype : String
  amount : Int
  status : String
  reference : String
deriving Repr, DecidableEq

/-- Stores visible to the settlement service.  `users` is the set of user ids
for `User.findById(booking.proId)`. -/
structure SSt where
  bookings : List SBooking
  escrows : List SEscrow
  ledger : List STxn
  users : List Nat
deriving Repr, DecidableEq

/-- Three days, in milliseconds. -/
def gracePeriodMs : Int := 3 * 24 * 60 * 60 * 1000

/-- settleEscrow (src/services/escrowSettlementService.js, lines 11-63) under
the stored schema.  `escrow.status === "released"` compares an absent path
(undefined) with a string and never succeeds, so the already-released return
is unreachable and is omitted here.  `completedAt` is `booking.completedAt ||
booking.updatedAt || now`: the first read is undefined and `updatedAt` (a
Date) is always truthy, so the chain yields `updatedAt`.  On the release path
the `status`/`releasedAt` assignments target paths outside the schema and
`escrow.save()` persists no visible change; `User.findById(booking.proId)` is
checked next; then `Transaction.create` receives `amount: escrow.amountHeld`,
again undefined, and the required-amount validator rejects the insert, so the
call throws before the booking update with nothing written. -/
def settleEscrow (now : Int) (st : SSt) (bookingId : Nat) :
    Except String (Option SEscrow) × SSt :=
  match st.bookings.find? (fun b => decide (b.id = bookingId)) with
  | none => (.error "Booking not found", st)
  | some b =>
    match st.escrows.find? (fun e => decide (e.bookingId = bookingId)) with
    | none => (.error "Escrow record not found", st)
    | some _ =>
      if ¬(now - b.updatedAt > gracePeriodMs) ∧ (¬b.customerReviewed ∨ ¬b.proReviewed) then
        (.ok none, st)
      else
        if b.proId ∈ st.users then
          (.error "Transaction validation failed: amount is required", st)
        else (.error "Pro user not found", st)

end SettleSvc

namespace DisputeSvc

/-- Dispute document as stored (src/models/Dispute.js paths the service
touches; the schema defines no `raisedBy` or `winnerId` path). -/
structure DisputeDoc where
  id : Nat
  bookingId : Nat
  reason : String
  description : String
  status : String
  resolution : Option String
  resolvedBy : Option Nat
  resolvedAt : Option Int
deriving Repr, DecidableEq

/-- Booking fields consumed by disputeService. -/
structure DBooking where
  id : Nat
  customerId : Nat
  proId : Nat
  status : String
deriving Repr, DecidableEq

/-- Stores visible to the dispute service.  The escrow store is included to
express what createDispute does (and does not do) to escrows. -/
structure DSt where
  bookings : List DBooking
  disputes : List DisputeDoc
  escrows : List EscrowSvc.EscrowDoc
  nextDisputeId : Nat
deriving Repr, DecidableEq

/-- DisputeSchema resolution enum. -/
def resolutionValues : List String :=
  ["refund_customer", "release_pro", "split", "no_action", "other"]

/-- disputeService.createDispute (src/services/disputeService.js, lines
12-32): requires the booking to exist, then calls `Dispute.create` with
bookingId, raisedBy, reason, description and status.  The Dispute schema
requires `initiatorId` and `respondentId`, neither of which is supplied
(`raisedBy` is not a schema path), so the create is always rejected by
validation: the call throws, no dispute is stored, no other write happens and
the admin notification never runs. -/
def createDispute (st : DSt) (bookingId raisedBy : Nat) (reason description : String) :
    Except String DisputeDoc × DSt :=
  match st.bookings.find? (fun b => decide (b.id = bookingId)) with
  | none => (.error "Booking not found", st)
  | some _ =>
    (.error "Dispute validation failed: initiatorId and respondentId are required", st)

/-- disputeService.resolveDispute (lines 37-66): set status `resolved` and
the given resolution (the `winnerId` assignment targets a path the schema does
not define, so strict mode drops it), save — the enum validator rejects a
present resolution outside the enumerated set, leaving the store unchanged,
while an absent resolution passes — then set the booking's status to
`dispute_resolved`.  That value is outside the Booking status enum, so
`booking.save()` is rejected by validation and the call throws after the
dispute was already saved; when the booking is missing, `booking.proId`
raises instead, likewise after the dispute was saved. -/
def resolveDispute (st : DSt) (disputeId resolvedBy : Nat) (resolution : Option String)
    (winnerId : Option Nat) (now : Int) : Except String DisputeDoc × DSt :=
  match st.disputes.find? (fun d => decide (d.id = disputeId)) with
  | none => (.error "Dispute not found", st)
  | some d =>
    let d2 : DisputeDoc :=
      { d with
          status := "resolved"
          resolution := resolution
          resolvedBy := some resolvedBy
          resolvedAt := some now }
    let validRes :=
      match resolution with
      | none => true
      | some r => decide (r ∈ resolutionValues)
    if validRes then
      let st1 : DSt :=
        { st with disputes := st.disputes.map (fun x => if x.id = d2.id then d2 else x) }
      match st1.bookings.find? (fun b => decide (b.id = d.bookingId)) with
      | some _ =>
        (.error "Booking validation failed: status is not a valid enum value", st1)
      | none => (.error "TypeError: booking is null", st1)
    else (.error "Dispute validation failed: resolution not in enum", st)

/-- Invariant relating a dispute's resolution field to its status: a set
resolution implies status `resolved`, and a set resolution comes from the
DisputeSchema enum. -/
def disputeInv (d : DisputeDoc) : Prop :=
  (¬(d.resolution = none) → d.status = "resolved") ∧
  (∀ r, d.resolution = some r → r ∈ resolutionValues)

end DisputeSvc

namespace ReconSvc

/-- Transaction fields read by the reconciliation service. -/
structure RTxn where
  id : Nat
  bookingId : Option Nat
  amount : Int
  ttype : String
  status : String
deriving Repr, DecidableEq

/-- Booking fields read by the reconciliation service. -/
structure RBooking where
  id : Nat
  paymentReleased : Bool
deriving Repr, DecidableEq

/-- Escrow as the reconciliation service reads it: it dereferences
`escrow.amountHeld` and `escrow.status`, fields that may be absent on stored
documents, guarded by `|| 0` and a direct string comparison. -/
structure REscrow where
  id : Nat
  bookingId : Nat
  amountHeld : Option Int
  status : Option String
deriving Repr, DecidableEq

/-- One entry of a report's issues array. -/
structure Issue where
  itype : String
  severity : String
  message : String
  relatedTxn : Option Nat
  relatedEscrow : Option Nat
  relatedBooking : Option Nat
deriving Repr, DecidableEq

/-- Stores scanned by reconcileTransactions. -/
structure RDb where
  txns : List RTxn
  escrows : List REscrow
  bookings : List RBooking
deriving Repr, DecidableEq

/-- MAX_ISSUES — cap on issues stored per report. -/
def maxIssues : Nat := 500

/-- Issues pushed for a single transaction (reconciliationService lines 34-91). -/
def checkTxn (db : RDb) (tx : RTxn) : List Issue :=
  match tx.bookingId with
  | none =>
    [{ itype := "txn_without_booking", severity := "high",
       message := "Transaction missing bookingId",
       relatedTxn := some tx.id, relatedEscrow := none, relatedBooking := none }]
  | some bid =>
    match db.bookings.find? (fun b => decide (b.id = bid)) with
    | none =>
      [{ itype := "txn_booking_missing", severity := "high",
         message := "Transaction references a missing booking",
         relatedTxn := some tx.id, relatedEscrow := none, relatedBooking := some bid }]
    | some booking =>
      if tx.ttype = "payment" ∧ tx.status = "success" then
        match db.escrows.find? (fun e => decide (e.bookingId = bid)) with
        | none =>
          [{ itype := "txn_missing_escrow", severity := "high",
             message := "Successful payment transaction but no escrow found",
             relatedTxn := some tx.id, relatedEscrow := none, relatedBooking := some bid }]
        | some escrow =>
          (if EscrowSvc.jsOrI escrow.amountHeld 0 ≠ tx.amount then
            [{ itype := "amount_mismatch", severity := "high",
               message := "Escrow amount differs from transaction amount",
               relatedTxn := some tx.id, relatedEscrow := some escrow.id,
               relatedBooking := some bid }]
          else []) ++
          (if escrow.status = some "released" ∧ booking.paymentReleased = false then
            [{ itype := "escrow_released_booking_not_updated", severity := "medium",
               message := "Escrow released but booking.paymentReleased still false",
               relatedTxn := some tx.id, relatedEscrow := some escrow.id,
               relatedBooking := some booking.id }]
          else [])
      else []

/-- Issues pushed for a single escrow (reconciliationService lines 110-135). -/
def checkEscrow (db : RDb) (esc : REscrow) : List Issue :=
  match db.bookings.find? (fun b => decide (b.id = esc.bookingId)) with
  | none =>
    [{ itype := "escrow_without_booking", severity := "high",
       message := "Escrow exists for missing booking",
       relatedTxn := none, relatedEscrow := some esc.id,
       relatedBooking := some esc.bookingId }]
  | some _ =>
    match db.txns.find? (fun t =>
        decide (t.bookingId = some esc.bookingId ∧ t.ttype = "payment" ∧ t.status = "success")) with
    | none =>
      [{ itype := "escrow_without_txn", severity := "medium",
         message := "Escrow exists but no successful payment transaction found",
         relatedTxn := none, relatedEscrow := some esc.id,
         relatedBooking := some esc.bookingId }]
    | some _ => []

/-- Transaction scan loop: at the top of each iteration the loop breaks once
`limit` transactions were checked or the issue list has reached MAX_ISSUES. -/
def txLoop (db : RDb) (limit : Nat) : List RTxn → Nat → List Issue → Nat × List Issue
  | [], checked, issues => (checked, issues)
  | tx :: rest, checked, issues =>
    if limit ≤ checked ∨ maxIssues ≤ issues.length then (checked, issues)
    else txLoop db limit rest (checked + 1) (issues ++ checkTxn db tx)

/-- Escrow scan loop, same break condition. -/
def escLoop (db : RDb) (limit : Nat) : List REscrow → Nat → List Issue → Nat × List Issue
  | [], checked, issues => (checked, issues)
  | esc :: rest, checked, issues =>
    if limit ≤ checked ∨ maxIssues ≤ issues.length then (checked, issues)
    else escLoop db limit rest (checked + 1) (issues ++ checkEscrow db esc)

structure Summary where
  totalTransactionsChecked : Nat
  totalEscrowsChecked : Nat
  totalIssues : Nat
deriving Repr, DecidableEq

structure Report where
  runBy : String
  summary : Summary
  issues : List Issue
deriving Repr, DecidableEq

/-- reconcileTransactions (reconciliationService lines 20-187): scan
transactions, then escrows, then create the report with
`totalIssues = issues.length` and `issues = issues.slice(0, MAX_ISSUES)`. -/
def reconcileTransactions (db : RDb) (limit : Nat) (runBy : String) : Report :=
  let t := txLoop db limit db.txns 0 []
  let e := escLoop db limit db.escrows 0 t.2
  { runBy := runBy
    summary :=
      { totalTransactionsChecked := t.1
        totalEscrowsChecked := e.1
        totalIssues := e.2.length }
    issues := e.2.take maxIssues }

end ReconSvc

namespace Ex

open EscrowSvc

/-- Booking B1 after escrow payment was set up. -/
def bk1 : BookingDoc :=
  { id := 1, customerId := some 2, creativeId := some 3, totalAmount := 5000,
    escrowAmount := some 5000, status := "pending", paymentStatus := "pending",
    paymentGateway := some "paystack", escrowId := some 10 }

/-- Pending escrow for B1 with gateway reference R1. -/
def es1 : EscrowDoc :=
  { id := 10, bookingId := 1, amount := 5000, state := "pending",
    paymentGateway := "paystack", gatewayReference := some "R1",
    initiatedBy := none, reconciled := false }

/-- Pending ledger entry for reference R1, as written at payment setup. -/
def tx1 : Txn :=
  { bookingId := some 1, customerId := some 2, creativeId := some 3, amount := 5000,
    ttype := "escrow", status := "pending", paymentGateway := "paystack",
    reference := some "R1", note := "initialization" }

/-- A verified success webhook for reference R1 carrying metadata.bookingId 1. -/
def w1 : WebhookIn :=
  { reference := "R1", bookingIdMeta := some 1, verifyAmount := some 5000,
    dataAmount := some 5000, gateway := "paystack" }

/-- State right after payment setup: pending ledger entry, pending escrow. -/
def st1 : EscrowSt := { ledger := [tx1], escrows := [es1], bookings := [bk1], nextId := 11 }

/-- The same escrow once held. -/
def esH : EscrowDoc := { es1 with state := "held" }

/-- State with a held escrow for B1. -/
def stH : EscrowSt := { ledger := [tx1], escrows := [esH], bookings := [bk1], nextId := 11 }

/-- A refunded (terminal), not yet reconciled escrow with a gateway reference. -/
def es3 : EscrowDoc :=
  { id := 20, bookingId := 2, amount := 100, state := "refunded",
    paymentGateway := "paystack", gatewayReference := some "R3",
    initiatedBy := none, reconciled := false }

/-- State holding only the refunded escrow. -/
def st3 : EscrowSt := { ledger := [], escrows := [es3], bookings := [], nextId := 21 }

/-- Gateway verify stub reporting success for every reference. -/
def v3 : String → Option String := fun _ => some "success"

/-- Completed booking, one review done, last write at time 0 (settlement
view; the Booking schema has no completedAt, so timing runs off updatedAt). -/
def sb4 : SettleSvc.SBooking :=
  { id := 1, customerId := 2, proId := 7, updatedAt := 0,
    customerReviewed := true, proReviewed := false, paymentReleased := false,
    settledAt := none }

/-- Escrow stored in state released (settlement view). -/
def se4rel : SettleSvc.SEscrow :=
  { id := 1, bookingId := 1, amount := 5000, state := "released" }

/-- Settlement state with the released escrow. -/
def st4a : SettleSvc.SSt := { bookings := [sb4], escrows := [se4rel], ledger := [], users := [7] }

/-- Held escrow (settlement view). -/
def se4held : SettleSvc.SEscrow := { se4rel with state := "held" }

/-- Settlement state with the held escrow. -/
def st4b : SettleSvc.SSt := { bookings := [sb4], escrows := [se4held], ledger := [], users := [7] }

/-- Disputed escrow (settlement view). -/
def seD : SettleSvc.SEscrow := { se4rel with state := "disputed" }

/-- Settlement state with the disputed escrow. -/
def stD : SettleSvc.SSt := { bookings := [sb4], escrows := [seD], ledger := [], users := [7] }

/-- Four days in milliseconds. -/
def day4 : Int := 4 * 24 * 60 * 60 * 1000

/-- Booking as the dispute service sees it. -/
def db6 : DisputeSvc.DBooking := { id := 1, customerId := 2, proId := 7, status := "completed" }

/-- Dispute-service state: booking 1 with a held escrow, no disputes yet. -/
def dst6 : DisputeSvc.DSt :=
  { bookings := [db6], disputes := [], escrows := [esH], nextDisputeId := 0 }

/-- An open dispute on booking 1. -/
def d9 : DisputeSvc.DisputeDoc :=
  { id := 0, bookingId := 1, reason := "no show", description := "",
    status := "open", resolution := none, resolvedBy := none, resolvedAt := none }

/-- Dispute-service state holding the open dispute. -/
def dst9 : DisputeSvc.DSt :=
  { bookings := [db6], disputes := [d9], escrows := [], nextDisputeId := 1 }

/-- Settlement state for the release attempt: held escrow, reviews missing,
grace period expired at `day4`. -/
def sb7 : SettleSvc.SBooking :=
  { id := 1, customerId := 2, proId := 7, updatedAt := 0,
    customerReviewed := false, proReviewed := false, paymentReleased := false,
    settledAt := none }

def se7 : SettleSvc.SEscrow := { id := 1, bookingId := 1, amount := 5000, state := "held" }

def st7 : SettleSvc.SSt :=
  { bookings := [sb7], escrows := [se7], ledger := [], users := [7] }

/-- A successful escrow-type Transaction whose booking exists but has no Escrow. -/
def rtx5 : ReconSvc.RTxn :=
  { id := 1, bookingId := some 1, amount := 5000, ttype := "escrow", status := "success" }

/-- Reconciliation store exhibiting the missing-escrow drift. -/
def db5 : ReconSvc.RDb :=
  { txns := [rtx5], escrows := [], bookings := [{ id := 1, paymentReleased := false }] }

/-- 501 transactions, each missing its bookingId — 501 detectable issues. -/
def db8 : ReconSvc.RDb :=
  { txns := (List.range 501).map (fun i =>
      { id := i, bookingId := none, amount := 0, ttype := "escrow", status := "pending" }),
    escrows := [], bookings := [] }

end Ex

section Helpers

open EscrowSvc

/-- Replacing the id-matching element keeps a successful `find?`, returning the
replacement, provided ids are distinct. -/
theorem find?_map_upd {α : Type} (idf : α → Nat) (p : α → Bool) (e e2 : α) :
    ∀ es : List α, es.find? p = some e → p e2 = true → idf e2 = idf e →
      (es.map idf).Nodup →
      (es.map (fun x => if idf x = idf e then e2 else x)).find? p = some e2 := by
  intro es
  induction es with
  | nil => intro h; simp at h
  | cons a rest ih =>
    intro hf hp hid hnd
    simp only [List.map_cons, List.nodup_cons] at hnd
    by_cases ha : p a = true
    · rw [List.find?_cons_of_pos _ ha] at hf
      injection hf with hae
      subst hae
      simp only [List.map_cons, if_pos rfl]
      exact List.find?_cons_of_pos _ hp
    · rw [List.find?_cons_of_neg _ ha] at hf
      have hmem : e ∈ rest := List.mem_of_find?_eq_some hf
      have hne : ¬(idf a = idf e) := by
        intro hcontra
        exact hnd.1 (hcontra ▸ List.mem_map_of_mem idf hmem)
      simp only [List.map_cons, if_neg hne]
      rw [List.find?_cons_of_neg _ ha]
      exact ih hf hp hid hnd.2

/-- Replacing by an id that occurs nowhere in the list is a no-op. -/
theorem map_upd_noop {α : Type} (idf : α → Nat) (k : Nat) (e2 : α) (es : List α)
    (h : ∀ x ∈ es, ¬(idf x = k)) :
    es.map (fun x => if idf x = k then e2 else x) = es := by
  have : es.map (fun x => if idf x = k then e2 else x) = es.map id :=
    List.map_congr_left (fun a ha => by rw [if_neg (h a ha)]; rfl)
  rw [this, List.map_id]

/-- Replace-by-id is idempotent. -/
theorem map_upd_upd {α : Type} (idf : α → Nat) (k : Nat) (e2 : α) (hk : idf e2 = k)
    (es : List α) :
    (es.map (fun x => if idf x = k then e2 else x)).map
        (fun x => if idf x = k then e2 else x)
      = es.map (fun x => if idf x = k then e2 else x) := by
  rw [List.map_map]
  apply List.map_congr_left
  intro a _
  by_cases h : idf a = k
  · simp [Function.comp, h, hk]
  · simp [Function.comp, h]

/-- `a || (a || b)` collapses for the JS-or on numbers. -/
theorem jsOrI_idem (v : Option Int) (a : Int) : jsOrI v (jsOrI v a) = jsOrI v a := by
  cases v with
  | none => rfl
  | some x => by_cases h : x = 0 <;> simp [jsOrI, h]

/-- JS-or with a present zero falls through to the default. -/
theorem jsOrI_zero_left (x : Int) : jsOrI (some 0) x = x := by
  show (if (0 : Int) = 0 then x else 0) = x
  rw [if_pos rfl]

/-- JS-or with a present nonzero value keeps that value. -/
theorem jsOrI_nonzero_left {v : Int} (hv : ¬(v = 0)) (x : Int) :
    jsOrI (some v) x = v := by
  show (if v = 0 then x else v) = v
  rw [if_neg hv]

/-- If the JS-or with default `a` is zero, the default itself is zero. -/
theorem jsOrI_eq_zero {v : Option Int} {a : Int} (h : jsOrI v a = 0) : a = 0 := by
  cases v with
  | none => exact h
  | some x =>
    by_cases hx : x = 0
    · subst hx; rw [jsOrI_zero_left] at h; exact h
    · rw [jsOrI_nonzero_left hx] at h; exact absurd h hx

/-- Feeding a JS-or result back with the same default changes nothing. -/
theorem jsOrI_absorb (v : Option Int) (t : Int) :
    jsOrI (some (jsOrI v t)) t = jsOrI v t := by
  by_cases h : jsOrI v t = 0
  · have ht : t = 0 := jsOrI_eq_zero h
    rw [h, ht, jsOrI_zero_left]
  · rw [jsOrI_nonzero_left h]

/-- The booking escrowAmount recomputation of the webhook path is stable. -/
theorem jsOrI_booking_stable (v : Int) (eb : Option Int) (tot : Int) :
    jsOrI (some v) (jsOrI (some (jsOrI (some v) (jsOrI eb tot))) tot)
      = jsOrI (some v) (jsOrI eb tot) := by
  by_cases hv : v = 0
  · subst hv
    simp only [jsOrI_zero_left]
    exact jsOrI_absorb eb tot
  · simp only [jsOrI_nonzero_left hv]

/-- recordTransaction with an already-used reference returns the stored record
and leaves the ledger untouched. -/
theorem recordTransaction_existing (ledger : List Txn) (t tx : Txn) (r : String)
    (ht : t.reference = some r) (hf : findTxnByRef ledger r = some tx) :
    recordTransaction ledger t = (tx, ledger) := by
  simp [recordTransaction, ht, hf]

/-- recordTransaction with a fresh reference appends the new record. -/
theorem recordTransaction_fresh (ledger : List Txn) (t : Txn) (r : String)
    (ht : t.reference = some r) (hf : findTxnByRef ledger r = none) :
    recordTransaction ledger t = (t, ledger ++ [t]) := by
  simp [recordTransaction, ht, hf]

end Helpers

set_option maxRecDepth 10000

/-- C1 counterexample: the success webhook for reference R1 is delivered once
(N = 1) into the state produced by payment setup, where the ledger already holds
the pending Transaction for R1.  The delivery is processed (the escrow becomes
`held`), yet the ledger afterwards contains zero Transactions with status
`success` for R1 — not exactly one as the claim requires. -/
theorem C1_counterexample :
    ((EscrowSvc.deliverSuccess Ex.w1 Ex.st1).2).ledger.countP
        (fun t => decide (t.reference = some "R1" ∧ t.status = "success")) = 0 ∧
    ((EscrowSvc.deliverSuccess Ex.w1 Ex.st1).2).escrows.map (fun e => e.state) = ["held"] :=
  ⟨by decide, by decide⟩

/-- C3 counterexample: reconcileEscrows moves the terminal state `refunded`
back to `held`.  The stored escrow is `refunded` and unreconciled; the gateway
verify stub reports success; after the run its state is `held`, so a terminal
state was not kept and the transition `refunded → held` follows no declared
arrow. -/
theorem C3_counterexample :
    Ex.es3.state = "refunded" ∧
    (EscrowSvc.reconcileEscrows Ex.v3 Ex.st3).escrows.map (fun e => e.state) = ["held"] :=
  ⟨by decide, by decide⟩

/-- C4, evaluated at the failing inputs.  settleEscrow reads and writes paths
the Escrow schema does not define (status, amountHeld, releasedAt), so the
already-released short-circuit never fires and the release path always throws
the required-amount validation error from Transaction.create with the store
unchanged: a held escrow past the grace period is not released (no payout
Transaction, no booking update), and a stored `released` escrow does not
produce the claimed null no-op either but the same thrown error. -/
theorem C4_code_eval :
    SettleSvc.settleEscrow Ex.day4 Ex.st4b 1 =
      (Except.error "Transaction validation failed: amount is required", Ex.st4b) ∧
    (SettleSvc.settleEscrow Ex.day4 Ex.st4b 1).2.escrows.map (fun e => e.state) =
      ["held"] ∧
    SettleSvc.settleEscrow Ex.day4 Ex.st4a 1 =
      (Except.error "Transaction validation failed: amount is required", Ex.st4a) :=
  ⟨rfl, by decide, rfl⟩

/-- C5 evaluation at the failing input: a Transaction with type `escrow` and
status `success` whose booking exists and that has no matching Escrow produces
an empty issue list — no `txn_missing_escrow` issue — because checkTxn guards on
the type `payment`, which is not a value of the Transaction type enum; retyping
the very same transaction as `payment` does produce the issue. -/
theorem C5_code_eval :
    (ReconSvc.reconcileTransactions Ex.db5 5000 "system").issues = [] ∧
    (ReconSvc.checkTxn Ex.db5 { Ex.rtx5 with ttype := "payment" }).map
        (fun i => i.itype) = ["txn_missing_escrow"] :=
  ⟨by decide, by decide⟩

/-- C6, evaluated at the failing input.  createDispute on the existing
booking throws the Dispute validation error (the schema-required initiatorId
and respondentId are never supplied): no dispute is stored and the held escrow
is untouched; and settleEscrow on a disputed escrow past the grace period does
not skip it — it enters the release path and throws the required-amount
validation error. -/
theorem C6_code_eval :
    DisputeSvc.createDispute Ex.dst6 1 5 "no show" "details" =
      (Except.error "Dispute validation failed: initiatorId and respondentId are required",
        Ex.dst6) ∧
    Ex.dst6.disputes = [] ∧
    Ex.dst6.escrows.map (fun e => e.state) = ["held"] ∧
    SettleSvc.settleEscrow Ex.day4 Ex.stD 1 =
      (Except.error "Transaction validation failed: amount is required", Ex.stD) :=
  ⟨rfl, rfl, by decide, rfl⟩

/-- C7: the settlement write sequence retains no partial state.  The store
settleEscrow returns always equals the input store — the escrow save persists
no visible change (the written paths are outside the Escrow schema) and the
payout insert is rejected by the required-amount validator before the booking
update — and whenever the release path is attempted (booking and escrow found,
not the review/grace no-op) the caller receives an error. -/
theorem C7_settlement_atomic (now : Int) (st : SettleSvc.SSt) (bid : Nat) :
    (SettleSvc.settleEscrow now st bid).2 = st ∧
    (∀ b e, st.bookings.find? (fun x => decide (x.id = bid)) = some b →
      st.escrows.find? (fun x => decide (x.bookingId = bid)) = some e →
      ¬(¬(now - b.updatedAt > SettleSvc.gracePeriodMs) ∧
          (¬b.customerReviewed ∨ ¬b.proReviewed)) →
      ∃ msg, (SettleSvc.settleEscrow now st bid).1 = Except.error msg) := by
  constructor
  · unfold SettleSvc.settleEscrow
    cases hb : st.bookings.find? (fun x => decide (x.id = bid)) with
    | none => simp only [hb]
    | some b =>
      cases he : st.escrows.find? (fun x => decide (x.bookingId = bid)) with
      | none => simp only [hb, he]
      | some e =>
        simp only [hb, he]
        split
        · rfl
        · split
          · rfl
          · rfl
  · intro b e hb he hrel
    simp only [SettleSvc.settleEscrow, hb, he]
    rw [if_neg hrel]
    by_cases hpro : b.proId ∈ st.users
    · rw [if_pos hpro]
      exact ⟨_, rfl⟩
    · rw [if_neg hpro]
      exact ⟨_, rfl⟩

/-- C9 counterexample: resolveDispute called on the open dispute with no
resolution argument persists a dispute whose status is `resolved` and whose
resolution field is unset — the dispute save happens before the call throws on
the booking status write — violating the set-iff-resolved invariant. -/
theorem C9_counterexample :
    (DisputeSvc.resolveDispute Ex.dst9 0 9 none none 100).2.disputes.map
        (fun d => (d.status, d.resolution)) = [("resolved", (none : Option String))] :=
  by decide

/-- C8 counterexample: 501 transactions each missing a bookingId are 501
individually detectable issues, but the scan breaks once the stored-issue cap
of 500 is reached, so summary.totalIssues reports 500, not a count that keeps
growing beyond the cap. -/
theorem C8_counterexample :
    (ReconSvc.reconcileTransactions Ex.db8 5000 "system").summary.totalIssues = 500 ∧
    Ex.db8.txns.length = 501 ∧
    Ex.db8.txns.all (fun tx => (ReconSvc.checkTxn Ex.db8 tx).length == 1) = true :=
  ⟨by decide, by decide, by decide⟩

/-- C2: releaseFunds contract — with the booking and its escrow present, the
call throws when the escrow state is outside {held, pending, disputed}; when
the guard passes (and the payout reference is fresh in the ledger) it returns
ok, appends exactly one `release` Transaction whose status mirrors the payout
result, and the escrow ends `released` when the payout succeeded and `disputed`
otherwise — never `held`. -/
theorem C2_releaseFunds_contract (st : EscrowSvc.EscrowSt) (bid : Nat)
    (ib : Option Nat) (note genRef : String) (p : EscrowSvc.PayoutRes)
    (b : EscrowSvc.BookingDoc) (e : EscrowSvc.EscrowDoc)
    (hb : EscrowSvc.findBooking st bid = some b)
    (he : EscrowSvc.findEscrowByBooking st b.id = some e) :
    (¬(e.state = "held" ∨ e.state = "pending" ∨ e.state = "disputed") →
      EscrowSvc.releaseFunds st bid ib note genRef p =
        (.error "Escrow not in releasable state", st)) ∧
    ((e.state = "held" ∨ e.state = "pending" ∨ e.state = "disputed") →
      EscrowSvc.findTxnByRef st.ledger (EscrowSvc.jsOrS p.dataRef genRef) = none →
      (EscrowSvc.releaseFunds st bid ib note genRef p).1 =
          .ok (p.success, EscrowSvc.jsOrS p.dataRef genRef) ∧
      (∃ tx : EscrowSvc.Txn,
          (EscrowSvc.releaseFunds st bid ib note genRef p).2.ledger = st.ledger ++ [tx] ∧
          tx.ttype = "release" ∧
          tx.status = (if p.success then "success" else "failed") ∧
          tx.reference = some (EscrowSvc.jsOrS p.dataRef genRef)) ∧
      (∀ x ∈ (EscrowSvc.releaseFunds st bid ib note genRef p).2.escrows,
          x.id = e.id →
            x.state = (if p.success then "released" else "disputed") ∧
            ¬(x.state = "held"))) := by
  constructor
  · intro hguard
    simp only [EscrowSvc.releaseFunds, hb, he]
    rw [if_neg hguard]
  · intro hguard hfresh
    have hrec := recordTransaction_fresh st.ledger
      { bookingId := some b.id
        customerId := b.customerId
        creativeId := b.creativeId
        amount := EscrowSvc.jsOrI (some e.amount)
          (EscrowSvc.jsOrI b.escrowAmount b.totalAmount)
        ttype := "release"
        status := if p.success then "success" else "failed"
        paymentGateway := EscrowSvc.jsOrS (some e.paymentGateway)
          (EscrowSvc.jsOrS b.paymentGateway "paystack")
        reference := some (EscrowSvc.jsOrS p.dataRef genRef)
        note := EscrowSvc.jsOrS (some note) "release" }
      (EscrowSvc.jsOrS p.dataRef genRef) rfl hfresh
    simp only [EscrowSvc.releaseFunds, hb, he]
    rw [if_pos hguard]
    simp only [EscrowSvc.saveBooking, EscrowSvc.saveEscrow, hrec]
    refine ⟨by trivial, ⟨_, by trivial, by trivial, by trivial, by trivial⟩, ?_⟩
    intro x hx hid
    rcases List.mem_map.mp hx with ⟨a, _, rfl⟩
    by_cases hcase : a.id = e.id
    · rw [if_pos hcase]
      constructor
      · rfl
      · by_cases hs : p.success = true
        · rw [if_pos hs]
          intro hcontra
          simp at hcontra
        · rw [if_neg hs]
          intro hcontra
          simp at hcontra
    · rw [if_neg hcase]
      rw [if_neg hcase] at hid
      exact absurd hid hcase

/-- C9 amended: the createDispute half of the claimed invariant is vacuous —
Dispute.create is always rejected by schema validation (required initiatorId
and respondentId are never supplied), so the call never returns a dispute and
leaves the store unchanged.  For resolveDispute only one direction of the iff
holds: it preserves the property that a set resolution implies status
`resolved` with a value from the enumerated set; the converse fails, since it
stores whatever resolution argument it receives, including none (see the
counterexample). -/
theorem C9_amended (st : DisputeSvc.DSt) (bid rb : Nat) (reason desc : String)
    (did rv : Nat) (res : Option String) (win : Option Nat) (now : Int)
    (hinv : ∀ d ∈ st.disputes, DisputeSvc.disputeInv d) :
    (DisputeSvc.createDispute st bid rb reason desc).2 = st ∧
    (∀ d2, ¬((DisputeSvc.createDispute st bid rb reason desc).1 = .ok d2)) ∧
    (∀ d ∈ (DisputeSvc.resolveDispute st did rv res win now).2.disputes,
        DisputeSvc.disputeInv d) := by
  refine ⟨?_, ?_, ?_⟩
  · unfold DisputeSvc.createDispute
    cases hfind : st.bookings.find? (fun b => decide (b.id = bid)) with
    | none => simp only [hfind]
    | some bk => simp only [hfind]
  · intro d2
    unfold DisputeSvc.createDispute
    cases hfind : st.bookings.find? (fun b => decide (b.id = bid)) with
    | none =>
      simp only [hfind]
      simp
    | some bk =>
      simp only [hfind]
      simp
  · intro d hd
    simp only [DisputeSvc.resolveDispute] at hd
    cases hfind : st.disputes.find? (fun x => decide (x.id = did)) with
    | none =>
      simp only [hfind] at hd
      exact hinv d hd
    | some d0 =>
      simp only [hfind] at hd
      cases res with
      | none =>
        simp only [if_pos rfl] at hd
        have hmap : d ∈ st.disputes.map (fun x =>
            if x.id = d0.id then
              { d0 with status := "resolved", resolution := none,
                        resolvedBy := some rv, resolvedAt := some now }
            else x) := by
          cases hfb : st.bookings.find? (fun b => decide (b.id = d0.bookingId)) with
          | some bk => simp only [hfb] at hd; exact hd
          | none => simp only [hfb] at hd; exact hd
        rcases List.mem_map.mp hmap with ⟨a, ha, rfl⟩
        by_cases hcase : a.id = d0.id
        · rw [if_pos hcase]
          exact ⟨fun h => absurd rfl h, fun r hr => absurd hr (by simp)⟩
        · rw [if_neg hcase]
          exact hinv a ha
      | some r0 =>
        by_cases hr0 : r0 ∈ DisputeSvc.resolutionValues
        · simp only [if_pos (decide_eq_true hr0)] at hd
          have hmap : d ∈ st.disputes.map (fun x =>
              if x.id = d0.id then
                { d0 with status := "resolved", resolution := some r0,
                          resolvedBy := some rv, resolvedAt := some now }
              else x) := by
            cases hfb : st.bookings.find? (fun b => decide (b.id = d0.bookingId)) with
            | some bk => simp only [hfb] at hd; exact hd
            | none => simp only [hfb] at hd; exact hd
          rcases List.mem_map.mp hmap with ⟨a, ha, rfl⟩
          by_cases hcase : a.id = d0.id
          · rw [if_pos hcase]
            refine ⟨fun _ => rfl, ?_⟩
            intro r hr
            injection hr with hr1
            subst hr1
            exact hr0
          · rw [if_neg hcase]
            exact hinv a ha
        · have hdec : ¬(decide (r0 ∈ DisputeSvc.resolutionValues) = true) := by
            simpa using hr0
          simp only [if_neg hdec] at hd
          exact hinv d hd

section WebhookLemmas

open EscrowSvc

/-- Appending a single matching element to a list where `find?` fails makes
`find?` return that element. -/
theorem find?_append_singleton {α : Type} (L : List α) (t : α) (p : α → Bool)
    (h : L.find? p = none) (ht : p t = true) : (L ++ [t]).find? p = some t := by
  rw [List.find?_append, h, Option.none_or]
  exact List.find?_cons_of_pos _ ht

/-- The upsert step never touches the ledger. -/
theorem preUpsert_ledger (w : WebhookIn) (st : EscrowSt) :
    ((preUpsert w st).2.2).ledger = st.ledger := by
  unfold preUpsert
  cases h : resolveTarget w st with
  | mk bo eo => cases bo <;> cases eo <;> rfl

/-- With the booking missing or the escrow present, the upsert step is a no-op
on the state. -/
theorem preUpsert_no_insert (w : WebhookIn) (st : EscrowSt)
    (bo : Option BookingDoc) (eo : Option EscrowDoc)
    (hres : resolveTarget w st = (bo, eo))
    (h : bo = none ∨ ¬(eo = none)) : preUpsert w st = (bo, eo, st) := by
  unfold preUpsert
  rw [hres]
  cases bo with
  | none => rfl
  | some b =>
    cases eo with
    | none =>
      rcases h with h1 | h2
      · exact absurd h1 (by simp)
      · exact absurd rfl h2
    | some e => rfl

/-- With a booking but no escrow, the upsert step inserts the pending escrow. -/
theorem preUpsert_insert (w : WebhookIn) (st : EscrowSt) (bid : Nat) (b : BookingDoc)
    (hmeta : w.bookingIdMeta = some bid)
    (hfb : findBooking st bid = some b)
    (hfe : findEscrowByBooking st b.id = none) :
    preUpsert w st =
      (some b, some
        { id := st.nextId, bookingId := b.id, amount := jsOrI b.escrowAmount b.totalAmount,
          state := "pending", paymentGateway := w.gateway,
          gatewayReference := some w.reference, initiatedBy := none, reconciled := false },
        { st with
            escrows := st.escrows ++
              [{ id := st.nextId, bookingId := b.id,
                 amount := jsOrI b.escrowAmount b.totalAmount,
                 state := "pending", paymentGateway := w.gateway,
                 gatewayReference := some w.reference, initiatedBy := none,
                 reconciled := false }],
            nextId := st.nextId + 1 }) := by
  unfold preUpsert resolveTarget
  simp only [hmeta, hfb, hfe]

/-- Resolution with metadata.bookingId present and the booking found. -/
theorem resolveTarget_meta_some (w : WebhookIn) (st : EscrowSt) (bid : Nat)
    (b : BookingDoc) (hmeta : w.bookingIdMeta = some bid)
    (hfb : findBooking st bid = some b) :
    resolveTarget w st = (some b, findEscrowByBooking st b.id) := by
  simp [resolveTarget, hmeta, hfb]

/-- Resolution with metadata.bookingId present but the booking missing. -/
theorem resolveTarget_meta_some_nob (w : WebhookIn) (st : EscrowSt) (bid : Nat)
    (hmeta : w.bookingIdMeta = some bid)
    (hfb : findBooking st bid = none) :
    resolveTarget w st = (none, none) := by
  simp [resolveTarget, hmeta, hfb]

/-- Resolution without metadata, found by gatewayReference. -/
theorem resolveTarget_meta_none_ref (w : WebhookIn) (st : EscrowSt) (e : EscrowDoc)
    (hmeta : w.bookingIdMeta = none)
    (hfe : findEscrowByRef st w.reference = some e) :
    resolveTarget w st = (findBooking st e.bookingId, some e) := by
  simp [resolveTarget, hmeta, hfe]

/-- Resolution without metadata and with no escrow carrying the reference. -/
theorem resolveTarget_meta_none_noe (w : WebhookIn) (st : EscrowSt)
    (hmeta : w.bookingIdMeta = none)
    (hfe : findEscrowByRef st w.reference = none) :
    resolveTarget w st = (none, none) := by
  simp [resolveTarget, hmeta, hfe]

/-- Exact shape of the success main path when booking and escrow are both
present. -/
theorem mainSuccess_sb_se (w : WebhookIn) (b : BookingDoc) (e : EscrowDoc)
    (st : EscrowSt) :
    mainSuccess w (some b) (some e) st =
      ((true, ""),
        { ledger := (recordTransaction st.ledger
            { bookingId := some b.id, customerId := b.customerId,
              creativeId := b.creativeId,
              amount := jsOrI (verifiedAmount w) (jsOrI w.dataAmount 0), ttype := "escrow",
              status := "success", paymentGateway := w.gateway,
              reference := some w.reference, note := "webhook_success" }).2,
          escrows := st.escrows.map (fun x => if x.id = e.id then
              { e with state := "held", gatewayReference := some w.reference,
                       amount := jsOrI (verifiedAmount w) e.amount } else x),
          bookings := st.bookings.map (fun x => if x.id = b.id then
              { b with paymentStatus := "escrowed",
                       escrowAmount := some (jsOrI (some (jsOrI (verifiedAmount w) e.amount))
                         (jsOrI b.escrowAmount b.totalAmount)),
                       paymentGateway := some w.gateway,
                       escrowId := some e.id,
                       status := if b.status = "pending" then "confirmed" else b.status } else x),
          nextId := st.nextId }) := rfl

/-- Exact shape of the success main path with an escrow but no booking. -/
theorem mainSuccess_none_se (w : WebhookIn) (e : EscrowDoc) (st : EscrowSt) :
    mainSuccess w none (some e) st =
      ((true, ""),
        { ledger := (recordTransaction st.ledger
            { bookingId := some e.bookingId, customerId := none, creativeId := none,
              amount := jsOrI (verifiedAmount w) (jsOrI w.dataAmount 0), ttype := "escrow",
              status := "success", paymentGateway := w.gateway,
              reference := some w.reference, note := "webhook_success" }).2,
          escrows := st.escrows.map (fun x => if x.id = e.id then
              { e with state := "held", gatewayReference := some w.reference,
                       amount := jsOrI (verifiedAmount w) e.amount } else x),
          bookings := st.bookings,
          nextId := st.nextId }) := rfl

/-- Exact shape of the success main path with neither booking nor escrow. -/
theorem mainSuccess_nn (w : WebhookIn) (st : EscrowSt) :
    mainSuccess w none none st =
      ((true, ""),
        { ledger := (recordTransaction st.ledger
            { bookingId := none, customerId := none, creativeId := none,
              amount := jsOrI (verifiedAmount w) (jsOrI w.dataAmount 0), ttype := "escrow",
              status := "success", paymentGateway := w.gateway,
              reference := some w.reference, note := "webhook_success" }).2,
          escrows := st.escrows,
          bookings := st.bookings,
          nextId := st.nextId }) := rfl

end WebhookLemmas

section WebhookLemmas2

open EscrowSvc

/-- When a success Transaction with the reference already exists and the upsert
step does not insert, a success delivery leaves the state unchanged. -/
theorem deliverSuccess_exit (w : WebhookIn) (st1 : EscrowSt) (tx : Txn)
    (hfind : findTxnByRef st1.ledger w.reference = some tx)
    (hst : tx.status = "success")
    (hP : preUpsert w st1 = ((preUpsert w st1).1, (preUpsert w st1).2.1, st1)) :
    (deliverSuccess w st1).2 = st1 := by
  unfold deliverSuccess
  rw [hP]
  simp only [hfind, if_pos hst]

/-- Exact shape of the success main path with a booking but no escrow (only
reachable when the upsert step is bypassed). -/
theorem mainSuccess_sb_none (w : WebhookIn) (b : BookingDoc) (st : EscrowSt) :
    mainSuccess w (some b) none st =
      ((true, ""),
        { ledger := (recordTransaction st.ledger
            { bookingId := some b.id, customerId := b.customerId,
              creativeId := b.creativeId,
              amount := jsOrI (verifiedAmount w) (jsOrI w.dataAmount 0), ttype := "escrow",
              status := "success", paymentGateway := w.gateway,
              reference := some w.reference, note := "webhook_success" }).2,
          escrows := st.escrows ++
            [{ id := st.nextId, bookingId := b.id,
               amount := jsOrI (verifiedAmount w) (jsOrI b.escrowAmount b.totalAmount),
               state := "held", paymentGateway := w.gateway,
               gatewayReference := some w.reference,
               initiatedBy := none, reconciled := false }],
          bookings := st.bookings.map (fun x => if x.id = b.id then
              { b with paymentStatus := "escrowed",
                       escrowAmount := some (jsOrI (some (jsOrI (verifiedAmount w)
                         (jsOrI b.escrowAmount b.totalAmount)))
                         (jsOrI b.escrowAmount b.totalAmount)),
                       paymentGateway := some w.gateway,
                       escrowId := some st.nextId,
                       status := if b.status = "pending" then "confirmed" else b.status }
            else x),
          nextId := st.nextId + 1 }) := rfl

/-- The main success path leaves the ledger alone when any Transaction with the
reference already exists. -/
theorem mainSuccess_ledger_existing (w : WebhookIn) (bo : Option BookingDoc)
    (eo : Option EscrowDoc) (st : EscrowSt) (tx : Txn)
    (h : findTxnByRef st.ledger w.reference = some tx) :
    ((mainSuccess w bo eo st).2).ledger = st.ledger := by
  cases eo with
  | some e =>
    cases bo with
    | some b =>
      rw [mainSuccess_sb_se, recordTransaction_existing st.ledger _ tx w.reference rfl h]
    | none =>
      rw [mainSuccess_none_se, recordTransaction_existing st.ledger _ tx w.reference rfl h]
  | none =>
    cases bo with
    | some b =>
      rw [mainSuccess_sb_none, recordTransaction_existing st.ledger _ tx w.reference rfl h]
    | none =>
      rw [mainSuccess_nn, recordTransaction_existing st.ledger _ tx w.reference rfl h]

/-- The main success path appends exactly one success Transaction with the
reference when the reference is fresh. -/
theorem mainSuccess_ledger_fresh (w : WebhookIn) (bo : Option BookingDoc)
    (eo : Option EscrowDoc) (st : EscrowSt)
    (h : findTxnByRef st.ledger w.reference = none) :
    ∃ t : Txn, ((mainSuccess w bo eo st).2).ledger = st.ledger ++ [t] ∧
      t.reference = some w.reference ∧ t.status = "success" := by
  cases eo with
  | some e =>
    cases bo with
    | some b =>
      rw [mainSuccess_sb_se, recordTransaction_fresh st.ledger _ w.reference rfl h]
      exact ⟨_, rfl, rfl, rfl⟩
    | none =>
      rw [mainSuccess_none_se, recordTransaction_fresh st.ledger _ w.reference rfl h]
      exact ⟨_, rfl, rfl, rfl⟩
  | none =>
    cases bo with
    | some b =>
      rw [mainSuccess_sb_none, recordTransaction_fresh st.ledger _ w.reference rfl h]
      exact ⟨_, rfl, rfl, rfl⟩
    | none =>
      rw [mainSuccess_nn, recordTransaction_fresh st.ledger _ w.reference rfl h]
      exact ⟨_, rfl, rfl, rfl⟩

/-- Fixpoint of the success main path with a booking: re-running the writes on
already-written documents changes nothing. -/
theorem mainSuccess_stable (w : WebhookIn) (b2 : BookingDoc) (e2 : EscrowDoc)
    (st1 : EscrowSt) (tx : Txn)
    (hfind : findTxnByRef st1.ledger w.reference = some tx)
    (hesc : st1.escrows.map (fun x => if x.id = e2.id then e2 else x) = st1.escrows)
    (hbk : st1.bookings.map (fun x => if x.id = b2.id then b2 else x) = st1.bookings)
    (hestate : e2.state = "held")
    (heref : e2.gatewayReference = some w.reference)
    (heamt : jsOrI (verifiedAmount w) e2.amount = e2.amount)
    (hbps : b2.paymentStatus = "escrowed")
    (hbpg : b2.paymentGateway = some w.gateway)
    (hbeid : b2.escrowId = some e2.id)
    (hbea : b2.escrowAmount =
        some (jsOrI (some e2.amount) (jsOrI b2.escrowAmount b2.totalAmount)))
    (hbst : ¬(b2.status = "pending")) :
    mainSuccess w (some b2) (some e2) st1 = ((true, ""), st1) := by
  have he3 : ({ e2 with state := "held", gatewayReference := some w.reference,
                        amount := jsOrI (verifiedAmount w) e2.amount } : EscrowDoc) = e2 :=
    EscrowDoc.ext rfl rfl heamt hestate.symm rfl heref.symm rfl rfl
  have hb3 : ({ b2 with paymentStatus := "escrowed",
                        escrowAmount := some (jsOrI (some (jsOrI (verifiedAmount w) e2.amount))
                          (jsOrI b2.escrowAmount b2.totalAmount)),
                        paymentGateway := some w.gateway,
                        escrowId := some e2.id,
                        status := if b2.status = "pending" then "confirmed" else b2.status }
      : BookingDoc) = b2 :=
    BookingDoc.ext rfl rfl rfl rfl (by rw [heamt]; exact hbea.symm)
      (by rw [if_neg hbst]) hbps.symm hbpg.symm hbeid.symm
  rw [mainSuccess_sb_se]
  rw [recordTransaction_existing st1.ledger _ tx w.reference rfl hfind]
  rw [he3, hb3, hesc, hbk]

/-- Fixpoint of the success main path without a booking. -/
theorem mainSuccess_stable_nb (w : WebhookIn) (e2 : EscrowDoc)
    (st1 : EscrowSt) (tx : Txn)
    (hfind : findTxnByRef st1.ledger w.reference = some tx)
    (hesc : st1.escrows.map (fun x => if x.id = e2.id then e2 else x) = st1.escrows)
    (hestate : e2.state = "held")
    (heref : e2.gatewayReference = some w.reference)
    (heamt : jsOrI (verifiedAmount w) e2.amount = e2.amount) :
    mainSuccess w none (some e2) st1 = ((true, ""), st1) := by
  have he3 : ({ e2 with state := "held", gatewayReference := some w.reference,
                        amount := jsOrI (verifiedAmount w) e2.amount } : EscrowDoc) = e2 :=
    EscrowDoc.ext rfl rfl heamt hestate.symm rfl heref.symm rfl rfl
  rw [mainSuccess_none_se]
  rw [recordTransaction_existing st1.ledger _ tx w.reference rfl hfind]
  rw [he3, hesc]

/-- Fixpoint of the success main path with neither booking nor escrow. -/
theorem mainSuccess_stable_nn (w : WebhookIn) (st1 : EscrowSt) (tx : Txn)
    (hfind : findTxnByRef st1.ledger w.reference = some tx) :
    mainSuccess w none none st1 = ((true, ""), st1) := by
  rw [mainSuccess_nn]
  rw [recordTransaction_existing st1.ledger _ tx w.reference rfl hfind]

end WebhookLemmas2

section ReconLemmas

/-- A single transaction contributes at most two issues. -/
theorem checkTxn_length_le (db : ReconSvc.RDb) (tx : ReconSvc.RTxn) :
    (ReconSvc.checkTxn db tx).length ≤ 2 := by
  unfold ReconSvc.checkTxn
  split
  · simp
  · split
    · simp
    · split
      · split
        · simp
        · rw [List.length_append]
          split <;> split <;> simp
      · simp

/-- A single escrow contributes at most one issue. -/
theorem checkEscrow_length_le (db : ReconSvc.RDb) (esc : ReconSvc.REscrow) :
    (ReconSvc.checkEscrow db esc).length ≤ 1 := by
  unfold ReconSvc.checkEscrow
  split
  · simp
  · split <;> simp

/-- The transaction loop never grows the issue list past the cap plus one
iteration's worth of issues. -/
theorem txLoop_length_le (db : ReconSvc.RDb) (limit : Nat) :
    ∀ (txs : List ReconSvc.RTxn) (checked : Nat) (issues : List ReconSvc.Issue),
      (ReconSvc.txLoop db limit txs checked issues).2.length ≤
        max issues.length (ReconSvc.maxIssues + 1) := by
  intro txs
  induction txs with
  | nil =>
    intro checked issues
    exact le_max_left _ _
  | cons tx rest ih =>
    intro checked issues
    unfold ReconSvc.txLoop
    split
    · exact le_max_left _ _
    · rename_i hcond
      push_neg at hcond
      have hlen : issues.length < ReconSvc.maxIssues := hcond.2
      calc (ReconSvc.txLoop db limit rest (checked + 1)
              (issues ++ ReconSvc.checkTxn db tx)).2.length
          ≤ max (issues ++ ReconSvc.checkTxn db tx).length (ReconSvc.maxIssues + 1) :=
            ih _ _
        _ ≤ ReconSvc.maxIssues + 1 := by
            apply max_le
            · rw [List.length_append]
              have h2 := checkTxn_length_le db tx
              omega
            · exact le_rfl
        _ ≤ max issues.length (ReconSvc.maxIssues + 1) := le_max_right _ _

/-- The escrow loop satisfies the same bound. -/
theorem escLoop_length_le (db : ReconSvc.RDb) (limit : Nat) :
    ∀ (escs : List ReconSvc.REscrow) (checked : Nat) (issues : List ReconSvc.Issue),
      (ReconSvc.escLoop db limit escs checked issues).2.length ≤
        max issues.length (ReconSvc.maxIssues + 1) := by
  intro escs
  induction escs with
  | nil =>
    intro checked issues
    exact le_max_left _ _
  | cons esc rest ih =>
    intro checked issues
    unfold ReconSvc.escLoop
    split
    · exact le_max_left _ _
    · rename_i hcond
      push_neg at hcond
      have hlen : issues.length < ReconSvc.maxIssues := hcond.2
      calc (ReconSvc.escLoop db limit rest (checked + 1)
              (issues ++ ReconSvc.checkEscrow db esc)).2.length
          ≤ max (issues ++ ReconSvc.checkEscrow db esc).length (ReconSvc.maxIssues + 1) :=
            ih _ _
        _ ≤ ReconSvc.maxIssues + 1 := by
            apply max_le
            · rw [List.length_append]
              have h2 := checkEscrow_length_le db esc
              omega
            · exact le_rfl
        _ ≤ max issues.length (ReconSvc.maxIssues + 1) := le_max_right _ _

end ReconLemmas

/-- C8 amended: every report stores at most 500 issues (the stored list is
`issues.slice(0, 500)`), but the scan does not keep counting past the cap —
both loops break once the issue list has reached 500 entries, so
summary.totalIssues never exceeds 501 (500 plus at most two issues contributed
by the final transaction iteration, minus the one slot that was free), rather
than counting every detectable issue in the data. -/
theorem C8_amended (db : ReconSvc.RDb) (limit : Nat) (runBy : String) :
    (ReconSvc.reconcileTransactions db limit runBy).issues.length ≤ ReconSvc.maxIssues ∧
    (ReconSvc.reconcileTransactions db limit runBy).summary.totalIssues ≤
      ReconSvc.maxIssues + 1 := by
  constructor
  · show ((ReconSvc.escLoop db limit db.escrows 0
        (ReconSvc.txLoop db limit db.txns 0 []).2).2.take ReconSvc.maxIssues).length ≤
        ReconSvc.maxIssues
    rw [List.length_take]
    exact inf_le_left
  · show (ReconSvc.escLoop db limit db.escrows 0
        (ReconSvc.txLoop db limit db.txns 0 []).2).2.length ≤ ReconSvc.maxIssues + 1
    have h1 := txLoop_length_le db limit db.txns 0 []
    simp only [List.length_nil, Nat.zero_le, max_eq_right] at h1
    have h2 := escLoop_length_le db limit db.escrows 0
      (ReconSvc.txLoop db limit db.txns 0 []).2
    exact le_trans h2 (max_le h1 le_rfl)

/-- C10: the ledger is write-once per reference — recordTransaction called with
a reference that already has a stored Transaction returns that stored record
exactly as-is and leaves the ledger unchanged, whatever status, amount or type
the call supplies; in particular a success webhook delivery for a reference
whose ledger entry is still `pending` leaves the whole ledger — and hence that
entry's `pending` status — untouched. -/
theorem C10_write_once (ledger : List EscrowSvc.Txn) (t tx : EscrowSvc.Txn) (r : String)
    (ht : t.reference = some r)
    (hf : EscrowSvc.findTxnByRef ledger r = some tx)
    (w : EscrowSvc.WebhookIn) (st : EscrowSvc.EscrowSt) (tx2 : EscrowSvc.Txn)
    (hf2 : EscrowSvc.findTxnByRef st.ledger w.reference = some tx2)
    (hp : tx2.status = "pending") :
    EscrowSvc.recordTransaction ledger t = (tx, ledger) ∧
    ((EscrowSvc.deliverSuccess w st).2).ledger = st.ledger ∧
    EscrowSvc.findTxnByRef ((EscrowSvc.deliverSuccess w st).2).ledger w.reference =
      some tx2 := by
  have hmain : ((EscrowSvc.deliverSuccess w st).2).ledger = st.ledger := by
    unfold EscrowSvc.deliverSuccess
    cases hP : EscrowSvc.preUpsert w st with
    | mk bo rest =>
      cases rest with
      | mk eo st1 =>
        have hl1 : st1.ledger = st.ledger := by
          have := preUpsert_ledger w st
          rw [hP] at this
          exact this
        have hf1 : EscrowSvc.findTxnByRef st1.ledger w.reference = some tx2 := by
          rw [hl1]; exact hf2
        simp only [hf1]
        rw [if_neg (by rw [hp]; simp)]
        rw [mainSuccess_ledger_existing w bo eo st1 tx2 hf1]
        exact hl1
  refine ⟨recordTransaction_existing ledger t tx r ht hf, hmain, ?_⟩
  rw [hmain]
  exact hf2

section WebhookLemmas3

open EscrowSvc

/-- The success main path sets the target escrow's state to `held` no matter
what state it was in before. -/
theorem mainSuccess_escrow_held (w : WebhookIn) (bo : Option BookingDoc)
    (e : EscrowDoc) (st : EscrowSt) :
    ∀ x ∈ ((mainSuccess w bo (some e) st).2).escrows, x.id = e.id → x.state = "held" := by
  cases bo with
  | some b =>
    rw [mainSuccess_sb_se]
    intro x hx hid
    rcases List.mem_map.mp hx with ⟨a, _, rfl⟩
    by_cases hcase : a.id = e.id
    · rw [if_pos hcase]
    · rw [if_neg hcase]
      rw [if_neg hcase] at hid
      exact absurd hid hcase
  | none =>
    rw [mainSuccess_none_se]
    intro x hx hid
    rcases List.mem_map.mp hx with ⟨a, _, rfl⟩
    by_cases hcase : a.id = e.id
    · rw [if_pos hcase]
    · rw [if_neg hcase]
      rw [if_neg hcase] at hid
      exact absurd hid hcase

end WebhookLemmas3

/-- C3 amended: the code does not protect terminal states or enforce the
declared arrows — the webhook success path sets the resolved escrow's state to
`held` from any prior state (unless a success Transaction for the reference
short-circuits processing), the webhook failure path sets it to `cancelled`
from any prior state, and reconcileEscrows moves any unreconciled escrow whose
gateway verification reports success out of any state other than held/released
(including the terminal `refunded` and `cancelled`) back to `held`. -/
theorem C3_amended
    (w : EscrowSvc.WebhookIn) (st : EscrowSvc.EscrowSt)
    (bo : Option EscrowSvc.BookingDoc) (e : EscrowSvc.EscrowDoc)
    (hres : EscrowSvc.resolveTarget w st = (bo, some e))
    (htx : ∀ tx, EscrowSvc.findTxnByRef st.ledger w.reference = some tx →
        ¬(tx.status = "success"))
    (wf : EscrowSvc.WebhookIn) (stf : EscrowSvc.EscrowSt)
    (bof : Option EscrowSvc.BookingDoc) (ef : EscrowSvc.EscrowDoc)
    (hresf : EscrowSvc.resolveTarget wf stf = (bof, some ef))
    (verify : String → Option String) (e3 : EscrowSvc.EscrowDoc) (r3 vs : String)
    (hrec : e3.reconciled = false) (hgw : e3.gatewayReference = some r3)
    (hver : verify r3 = some vs) (hlow : EscrowSvc.toLowerStr vs = "success")
    (hstate : ¬(e3.state = "held" ∨ e3.state = "released")) :
    (∀ x ∈ ((EscrowSvc.deliverSuccess w st).2).escrows,
        x.id = e.id → x.state = "held") ∧
    (∀ x ∈ ((EscrowSvc.deliverFailure wf stf).2).escrows,
        x.id = ef.id → x.state = "cancelled") ∧
    (EscrowSvc.reconcileStep verify e3).state = "held" := by
  refine ⟨?_, ?_, ?_⟩
  · have hP := preUpsert_no_insert w st bo (some e) hres (Or.inr (by simp))
    unfold EscrowSvc.deliverSuccess
    rw [hP]
    cases hf : EscrowSvc.findTxnByRef st.ledger w.reference with
    | some tx =>
      simp only [hf]
      rw [if_neg (htx tx hf)]
      exact mainSuccess_escrow_held w bo e st
    | none =>
      simp only [hf]
      exact mainSuccess_escrow_held w bo e st
  · have hP := preUpsert_no_insert wf stf bof (some ef) hresf (Or.inr (by simp))
    unfold EscrowSvc.deliverFailure
    rw [hP]
    cases bof with
    | some b =>
      intro x hx hid
      simp only [EscrowSvc.saveEscrow, EscrowSvc.saveBooking] at hx
      rcases List.mem_map.mp hx with ⟨a, _, rfl⟩
      by_cases hcase : a.id = ef.id
      · rw [if_pos hcase]
      · rw [if_neg hcase]
        rw [if_neg hcase] at hid
        exact absurd hid hcase
    | none =>
      intro x hx hid
      simp only [EscrowSvc.saveEscrow, EscrowSvc.saveBooking] at hx
      rcases List.mem_map.mp hx with ⟨a, _, rfl⟩
      by_cases hcase : a.id = ef.id
      · rw [if_pos hcase]
      · rw [if_neg hcase]
        rw [if_neg hcase] at hid
        exact absurd hid hcase
  · unfold EscrowSvc.reconcileStep
    rw [if_neg (by rw [hrec]; simp)]
    simp only [hgw, hver]
    rw [if_pos ⟨hlow, hstate⟩]

section IdemLemmas

open EscrowSvc

/-- findTxnByRef over a ledger extended with a matching entry. -/
theorem findTxnByRef_append (L : List Txn) (t : Txn) (r : String)
    (h : findTxnByRef L r = none) (ht : t.reference = some r) :
    findTxnByRef (L ++ [t]) r = some t := by
  unfold findTxnByRef at *
  exact find?_append_singleton L t _ h (by rw [decide_eq_true_eq]; exact ht)

/-- find?_map_upd specialized to escrow documents. -/
theorem find?_map_upd_esc (p : EscrowDoc → Bool) (e e2 : EscrowDoc)
    (es : List EscrowDoc) (h : es.find? p = some e) (hp : p e2 = true)
    (hid : e2.id = e.id) (hnd : (es.map (fun x => x.id)).Nodup) :
    (es.map (fun x => if x.id = e.id then e2 else x)).find? p = some e2 :=
  find?_map_upd (fun x => x.id) p e e2 es h hp hid hnd

/-- find?_map_upd specialized to booking documents. -/
theorem find?_map_upd_bk (p : BookingDoc → Bool) (b b2 : BookingDoc)
    (bs : List BookingDoc) (h : bs.find? p = some b) (hp : p b2 = true)
    (hid : b2.id = b.id) (hnd : (bs.map (fun x => x.id)).Nodup) :
    (bs.map (fun x => if x.id = b.id then b2 else x)).find? p = some b2 :=
  find?_map_upd (fun x => x.id) p b b2 bs h hp hid hnd

/-- Resolution does not read the ledger or the id counter. -/
theorem resolveTarget_congr (w : WebhookIn) (st stx : EscrowSt)
    (hbk : stx.bookings = st.bookings) (hesc : stx.escrows = st.escrows) :
    resolveTarget w stx = resolveTarget w st := by
  unfold resolveTarget findBooking findEscrowByBooking findEscrowByRef
  rw [hbk, hesc]

/-- A second delivery short-circuits into the already-processed exit when the
ledger holds a success Transaction and resolution does not trigger an insert. -/
theorem deliverSuccess_exit2 (w : WebhookIn) (stx : EscrowSt) (t : Txn)
    (hfx : findTxnByRef stx.ledger w.reference = some t) (hts : t.status = "success")
    (bo2 : Option BookingDoc) (eo2 : Option EscrowDoc)
    (hres2 : resolveTarget w stx = (bo2, eo2))
    (hno : bo2 = none ∨ ¬(eo2 = none)) : (deliverSuccess w stx).2 = stx :=
  deliverSuccess_exit w stx t hfx hts
    (by rw [preUpsert_no_insert w stx bo2 eo2 hres2 hno])

/-- After the main success path ran with booking and escrow, re-resolving by
metadata.bookingId finds exactly the written booking and escrow documents. -/
theorem resolve_after_main_A (w : WebhookIn) (st : EscrowSt) (bid : Nat)
    (b : BookingDoc) (e : EscrowDoc)
    (hmeta : w.bookingIdMeta = some bid)
    (hfb : findBooking st bid = some b)
    (hfe : findEscrowByBooking st b.id = some e)
    (hE : (st.escrows.map (fun x => x.id)).Nodup)
    (hB : (st.bookings.map (fun x => x.id)).Nodup) :
    resolveTarget w ((mainSuccess w (some b) (some e) st).2) =
      (some ({ b with paymentStatus := "escrowed",
                      escrowAmount := some (jsOrI (some (jsOrI (verifiedAmount w) e.amount))
                        (jsOrI b.escrowAmount b.totalAmount)),
                      paymentGateway := some w.gateway, escrowId := some e.id,
                      status := if b.status = "pending" then "confirmed" else b.status }),
       some ({ e with state := "held", gatewayReference := some w.reference,
                      amount := jsOrI (verifiedAmount w) e.amount })) := by
  have hb2d : decide (b.id = bid) = true :=
    @List.find?_some BookingDoc (fun x => decide (x.id = bid)) b st.bookings hfb
  have hb2id : b.id = bid := of_decide_eq_true hb2d
  have hebd : decide (e.bookingId = b.id) = true :=
    @List.find?_some EscrowDoc (fun x => decide (x.bookingId = b.id)) e st.escrows hfe
  have hebk : e.bookingId = b.id := of_decide_eq_true hebd
  set e2 : EscrowDoc := { e with state := "held", gatewayReference := some w.reference,
                                 amount := jsOrI (verifiedAmount w) e.amount } with he2
  set b2 : BookingDoc := { b with paymentStatus := "escrowed",
                                  escrowAmount := some (jsOrI (some (jsOrI (verifiedAmount w)
                                    e.amount)) (jsOrI b.escrowAmount b.totalAmount)),
                                  paymentGateway := some w.gateway, escrowId := some e.id,
                                  status := if b.status = "pending" then "confirmed"
                                    else b.status } with hb2
  have hfb2 : findBooking ((mainSuccess w (some b) (some e) st).2) bid = some b2 :=
    find?_map_upd_bk (fun x => decide (x.id = bid)) b b2 st.bookings hfb
      (decide_eq_true (show b2.id = bid from hb2id)) rfl hB
  have hfe2 : findEscrowByBooking ((mainSuccess w (some b) (some e) st).2) b2.id = some e2 :=
    find?_map_upd_esc (fun x => decide (x.bookingId = b2.id)) e e2 st.escrows hfe
      (decide_eq_true (show e2.bookingId = b2.id from hebk)) rfl hE
  rw [resolveTarget_meta_some w _ bid b2 hmeta hfb2]
  rw [hfe2]

/-- Same as resolve_after_main_A when the webhook resolved through the
gatewayReference instead of metadata. -/
theorem resolve_after_main_Ap (w : WebhookIn) (st : EscrowSt)
    (b : BookingDoc) (e : EscrowDoc)
    (hmeta : w.bookingIdMeta = none)
    (hfe : findEscrowByRef st w.reference = some e)
    (hfb : findBooking st e.bookingId = some b)
    (hE : (st.escrows.map (fun x => x.id)).Nodup)
    (hB : (st.bookings.map (fun x => x.id)).Nodup) :
    resolveTarget w ((mainSuccess w (some b) (some e) st).2) =
      (some ({ b with paymentStatus := "escrowed",
                      escrowAmount := some (jsOrI (some (jsOrI (verifiedAmount w) e.amount))
                        (jsOrI b.escrowAmount b.totalAmount)),
                      paymentGateway := some w.gateway, escrowId := some e.id,
                      status := if b.status = "pending" then "confirmed" else b.status }),
       some ({ e with state := "held", gatewayReference := some w.reference,
                      amount := jsOrI (verifiedAmount w) e.amount })) := by
  have hbd : decide (b.id = e.bookingId) = true :=
    @List.find?_some BookingDoc (fun x => decide (x.id = e.bookingId)) b st.bookings hfb
  have hbid : b.id = e.bookingId := of_decide_eq_true hbd
  set e2 : EscrowDoc := { e with state := "held", gatewayReference := some w.reference,
                                 amount := jsOrI (verifiedAmount w) e.amount } with he2
  set b2 : BookingDoc := { b with paymentStatus := "escrowed",
                                  escrowAmount := some (jsOrI (some (jsOrI (verifiedAmount w)
                                    e.amount)) (jsOrI b.escrowAmount b.totalAmount)),
                                  paymentGateway := some w.gateway, escrowId := some e.id,
                                  status := if b.status = "pending" then "confirmed"
                                    else b.status } with hb2
  have hfe2 : findEscrowByRef ((mainSuccess w (some b) (some e) st).2) w.reference = some e2 :=
    find?_map_upd_esc (fun x => decide (x.gatewayReference = some w.reference))
      e e2 st.escrows hfe
      (decide_eq_true (show e2.gatewayReference = some w.reference from rfl)) rfl hE
  have hfb2 : findBooking ((mainSuccess w (some b) (some e) st).2) e2.bookingId = some b2 :=
    find?_map_upd_bk (fun x => decide (x.id = e2.bookingId)) b b2 st.bookings hfb
      (decide_eq_true (show b2.id = e2.bookingId from hbid)) rfl hB
  rw [resolveTarget_meta_none_ref w _ e2 hmeta hfe2]
  rw [hfb2]

end IdemLemmas

section IdemLemmas2

open EscrowSvc

/-- After the main success path ran with an escrow resolved by reference and
no booking, re-resolution finds the written escrow and still no booking. -/
theorem resolve_after_main_C (w : WebhookIn) (st : EscrowSt) (e : EscrowDoc)
    (hmeta : w.bookingIdMeta = none)
    (hfe : findEscrowByRef st w.reference = some e)
    (hfb : findBooking st e.bookingId = none)
    (hE : (st.escrows.map (fun x => x.id)).Nodup) :
    resolveTarget w ((mainSuccess w none (some e) st).2) =
      (none, some ({ e with state := "held", gatewayReference := some w.reference,
                            amount := jsOrI (verifiedAmount w) e.amount })) := by
  set e2 : EscrowDoc := { e with state := "held", gatewayReference := some w.reference,
                                 amount := jsOrI (verifiedAmount w) e.amount } with he2
  have hfe2 : findEscrowByRef ((mainSuccess w none (some e) st).2) w.reference = some e2 :=
    find?_map_upd_esc (fun x => decide (x.gatewayReference = some w.reference))
      e e2 st.escrows hfe
      (decide_eq_true (show e2.gatewayReference = some w.reference from rfl)) rfl hE
  rw [resolveTarget_meta_none_ref w _ e2 hmeta hfe2]
  have hfb2 : findBooking ((mainSuccess w none (some e) st).2) e2.bookingId = none := hfb
  rw [hfb2]

/-- Second delivery after a main run with booking and escrow is a no-op on the
state, given that re-resolution finds the written documents. -/
theorem round2_fix (w : WebhookIn) (st : EscrowSt) (b : BookingDoc) (e : EscrowDoc)
    (tx2 : Txn)
    (hfx : findTxnByRef ((mainSuccess w (some b) (some e) st).2).ledger w.reference =
      some tx2)
    (hres2 : resolveTarget w ((mainSuccess w (some b) (some e) st).2) =
      (some ({ b with paymentStatus := "escrowed",
                      escrowAmount := some (jsOrI (some (jsOrI (verifiedAmount w) e.amount))
                        (jsOrI b.escrowAmount b.totalAmount)),
                      paymentGateway := some w.gateway, escrowId := some e.id,
                      status := if b.status = "pending" then "confirmed" else b.status }),
       some ({ e with state := "held", gatewayReference := some w.reference,
                      amount := jsOrI (verifiedAmount w) e.amount }))) :
    (deliverSuccess w ((mainSuccess w (some b) (some e) st).2)).2 =
      (mainSuccess w (some b) (some e) st).2 := by
  set e2 : EscrowDoc := { e with state := "held", gatewayReference := some w.reference,
                                 amount := jsOrI (verifiedAmount w) e.amount } with he2
  set b2 : BookingDoc := { b with paymentStatus := "escrowed",
                                  escrowAmount := some (jsOrI (some (jsOrI (verifiedAmount w)
                                    e.amount)) (jsOrI b.escrowAmount b.totalAmount)),
                                  paymentGateway := some w.gateway, escrowId := some e.id,
                                  status := if b.status = "pending" then "confirmed"
                                    else b.status } with hb2
  by_cases hs : tx2.status = "success"
  · exact deliverSuccess_exit2 w _ tx2 hfx hs _ _ hres2 (Or.inr (by simp))
  · have hesc : ((mainSuccess w (some b) (some e) st).2).escrows.map
        (fun x => if x.id = e2.id then e2 else x) =
        ((mainSuccess w (some b) (some e) st).2).escrows :=
      map_upd_upd (fun x => x.id) e.id e2 rfl st.escrows
    have hbk : ((mainSuccess w (some b) (some e) st).2).bookings.map
        (fun x => if x.id = b2.id then b2 else x) =
        ((mainSuccess w (some b) (some e) st).2).bookings :=
      map_upd_upd (fun x => x.id) b.id b2 rfl st.bookings
    have hamt : jsOrI (verifiedAmount w) e2.amount = e2.amount :=
      jsOrI_idem (verifiedAmount w) e.amount
    have hbea : b2.escrowAmount =
        some (jsOrI (some e2.amount) (jsOrI b2.escrowAmount b2.totalAmount)) :=
      (congrArg some (jsOrI_booking_stable (jsOrI (verifiedAmount w) e.amount)
        b.escrowAmount b.totalAmount)).symm
    have hbst : ¬(b2.status = "pending") := by
      show ¬((if b.status = "pending" then "confirmed" else b.status) = "pending")
      by_cases h : b.status = "pending"
      · rw [if_pos h]; simp
      · rw [if_neg h]; exact h
    unfold deliverSuccess
    cases hP : preUpsert w ((mainSuccess w (some b) (some e) st).2) with
    | mk bo rest =>
      cases rest with
      | mk eo s1 =>
        rw [preUpsert_no_insert w _ (some b2) (some e2) hres2 (Or.inr (by simp))] at hP
        injection hP with h1 h23
        injection h23 with h2 h3
        subst h1
        subst h2
        subst h3
        simp only [hfx]
        rw [if_neg hs]
        rw [mainSuccess_stable w b2 e2 _ tx2 hfx hesc hbk rfl rfl hamt rfl rfl rfl hbea hbst]

/-- Second delivery after a bookingless main run is a no-op on the state. -/
theorem round2_fix_nb (w : WebhookIn) (st : EscrowSt) (e : EscrowDoc) (tx2 : Txn)
    (hfx : findTxnByRef ((mainSuccess w none (some e) st).2).ledger w.reference = some tx2)
    (hres2 : resolveTarget w ((mainSuccess w none (some e) st).2) =
      (none, some ({ e with state := "held", gatewayReference := some w.reference,
                            amount := jsOrI (verifiedAmount w) e.amount }))) :
    (deliverSuccess w ((mainSuccess w none (some e) st).2)).2 =
      (mainSuccess w none (some e) st).2 := by
  set e2 : EscrowDoc := { e with state := "held", gatewayReference := some w.reference,
                                 amount := jsOrI (verifiedAmount w) e.amount } with he2
  by_cases hs : tx2.status = "success"
  · exact deliverSuccess_exit2 w _ tx2 hfx hs _ _ hres2 (Or.inr (by simp))
  · have hesc : ((mainSuccess w none (some e) st).2).escrows.map
        (fun x => if x.id = e2.id then e2 else x) =
        ((mainSuccess w none (some e) st).2).escrows :=
      map_upd_upd (fun x => x.id) e.id e2 rfl st.escrows
    have hamt : jsOrI (verifiedAmount w) e2.amount = e2.amount :=
      jsOrI_idem (verifiedAmount w) e.amount
    unfold deliverSuccess
    cases hP : preUpsert w ((mainSuccess w none (some e) st).2) with
    | mk bo rest =>
      cases rest with
      | mk eo s1 =>
        rw [preUpsert_no_insert w _ none (some e2) hres2 (Or.inl rfl)] at hP
        injection hP with h1 h23
        injection h23 with h2 h3
        subst h1
        subst h2
        subst h3
        simp only [hfx]
        rw [if_neg hs]
        rw [mainSuccess_stable_nb w e2 _ tx2 hfx hesc rfl rfl hamt]

end IdemLemmas2

section IdemLemmas3

open EscrowSvc

/-- A success delivery whose reference already has a non-success ledger entry
does not modify the ledger. -/
theorem deliverSuccess_ledger_keep (w : WebhookIn) (st : EscrowSt) (tx : Txn)
    (hf : findTxnByRef st.ledger w.reference = some tx)
    (hs : ¬(tx.status = "success")) :
    ((deliverSuccess w st).2).ledger = st.ledger := by
  unfold deliverSuccess
  cases hP : preUpsert w st with
  | mk bo rest =>
    cases rest with
    | mk eo st1 =>
      have hl1 : st1.ledger = st.ledger := by
        have := preUpsert_ledger w st
        rw [hP] at this
        exact this
      have hf1 : findTxnByRef st1.ledger w.reference = some tx := by
        rw [hl1]; exact hf
      simp only [hf1]
      rw [if_neg hs]
      rw [mainSuccess_ledger_existing w bo eo st1 tx hf1]
      exact hl1

/-- A success delivery with a fresh reference adds exactly one success ledger
entry for that reference. -/
theorem deliverSuccess_count_one (w : WebhookIn) (st : EscrowSt)
    (hnone : findTxnByRef st.ledger w.reference = none) :
    ((deliverSuccess w st).2).ledger.countP
      (fun t => decide (t.reference = some w.reference ∧ t.status = "success")) = 1 := by
  unfold deliverSuccess
  cases hP : preUpsert w st with
  | mk bo rest =>
    cases rest with
    | mk eo st1 =>
      have hl1 : st1.ledger = st.ledger := by
        have := preUpsert_ledger w st
        rw [hP] at this
        exact this
      have hf1 : findTxnByRef st1.ledger w.reference = none := by
        rw [hl1]; exact hnone
      simp only [hf1]
      obtain ⟨t, hled, htr, hts⟩ := mainSuccess_ledger_fresh w bo eo st1 hf1
      rw [hled, hl1]
      rw [List.countP_append]
      have h0 : st.ledger.countP
          (fun t => decide (t.reference = some w.reference ∧ t.status = "success")) = 0 := by
        rw [List.countP_eq_zero]
        intro a ha
        have hna := List.find?_eq_none.mp hnone a ha
        simp only [decide_eq_true_eq] at hna ⊢
        intro hcontra
        exact hna hcontra.1
      have h1 : List.countP
          (fun t => decide (t.reference = some w.reference ∧ t.status = "success")) [t] = 1 := by
        simp [List.countP_cons, htr, hts]
      rw [h0, h1]

end IdemLemmas3

/-- C1, amended. Success-webhook delivery is idempotent on the state: under
unique document ids (and a fresh id counter), delivering the same success
payload twice yields the same state as delivering it once. A delivery whose
reference is fresh appends exactly one success Transaction for that reference.
However, when a Transaction with the reference already exists — even a
`pending` one created at initialization — the ledger is left exactly as it
was: recordTransaction returns the stored document unchanged, so the claimed
"exactly one success Transaction" fails for the init-then-webhook flow (see
the counterexample), while the write-once/idempotency boundary itself holds. -/
theorem C1_amended (w : EscrowSvc.WebhookIn) (st : EscrowSvc.EscrowSt)
    (hE : (st.escrows.map (fun x => x.id)).Nodup)
    (hB : (st.bookings.map (fun x => x.id)).Nodup)
    (hN : ∀ e ∈ st.escrows, e.id < st.nextId) :
    (EscrowSvc.deliverSuccess w ((EscrowSvc.deliverSuccess w st).2)).2 =
      (EscrowSvc.deliverSuccess w st).2 ∧
    (EscrowSvc.findTxnByRef st.ledger w.reference = none →
      ((EscrowSvc.deliverSuccess w st).2).ledger.countP
        (fun t => decide (t.reference = some w.reference ∧ t.status = "success")) = 1) ∧
    (∀ tx : EscrowSvc.Txn, EscrowSvc.findTxnByRef st.ledger w.reference = some tx →
      ¬(tx.status = "success") →
      ((EscrowSvc.deliverSuccess w st).2).ledger = st.ledger) := by
  refine ⟨?_, fun hnone => deliverSuccess_count_one w st hnone,
    fun tx hf hs => deliverSuccess_ledger_keep w st tx hf hs⟩
  cases hmeta : w.bookingIdMeta with
  | some bid =>
    cases hfb : EscrowSvc.findBooking st bid with
    | none =>
      have hres : EscrowSvc.resolveTarget w st = (none, none) :=
        resolveTarget_meta_some_nob w st bid hmeta hfb
      have hP : EscrowSvc.preUpsert w st = (none, none, st) :=
        preUpsert_no_insert w st none none hres (Or.inl rfl)
      cases hf : EscrowSvc.findTxnByRef st.ledger w.reference with
      | some tx =>
        by_cases hs : tx.status = "success"
        · have h1 : (EscrowSvc.deliverSuccess w st).2 = st := by
            unfold EscrowSvc.deliverSuccess
            rw [hP]
            simp only [hf]
            rw [if_pos hs]
          rw [h1]
          exact h1
        · have h1 : (EscrowSvc.deliverSuccess w st).2 = st := by
            unfold EscrowSvc.deliverSuccess
            rw [hP]
            simp only [hf]
            rw [if_neg hs]
            rw [mainSuccess_stable_nn w st tx hf]
          rw [h1]
          exact h1
      | none =>
        have hrun1 : (EscrowSvc.deliverSuccess w st).2 =
            (EscrowSvc.mainSuccess w none none st).2 := by
          unfold EscrowSvc.deliverSuccess
          rw [hP]
          simp only [hf]
        obtain ⟨t, hled, htr, hts⟩ := mainSuccess_ledger_fresh w none none st hf
        have hfx : EscrowSvc.findTxnByRef
            ((EscrowSvc.mainSuccess w none none st).2).ledger w.reference = some t := by
          rw [hled]
          exact findTxnByRef_append st.ledger t w.reference hf htr
        have hres2 : EscrowSvc.resolveTarget w
            ((EscrowSvc.mainSuccess w none none st).2) = (none, none) := by
          rw [resolveTarget_congr w st _ (by rw [mainSuccess_nn]) (by rw [mainSuccess_nn])]
          exact hres
        rw [hrun1]
        exact deliverSuccess_exit2 w _ t hfx hts none none hres2 (Or.inl rfl)
    | some b =>
      cases hfe : EscrowSvc.findEscrowByBooking st b.id with
      | some e =>
        have hres : EscrowSvc.resolveTarget w st = (some b, some e) := by
          rw [resolveTarget_meta_some w st bid b hmeta hfb, hfe]
        have hP : EscrowSvc.preUpsert w st = (some b, some e, st) :=
          preUpsert_no_insert w st (some b) (some e) hres (Or.inr (by simp))
        have hres2 := resolve_after_main_A w st bid b e hmeta hfb hfe hE hB
        cases hf : EscrowSvc.findTxnByRef st.ledger w.reference with
        | some tx =>
          by_cases hs : tx.status = "success"
          · have h1 : (EscrowSvc.deliverSuccess w st).2 = st := by
              unfold EscrowSvc.deliverSuccess
              rw [hP]
              simp only [hf]
              rw [if_pos hs]
            rw [h1]
            exact h1
          · have hrun1 : (EscrowSvc.deliverSuccess w st).2 =
                (EscrowSvc.mainSuccess w (some b) (some e) st).2 := by
              unfold EscrowSvc.deliverSuccess
              rw [hP]
              simp only [hf]
              rw [if_neg hs]
            have hfx : EscrowSvc.findTxnByRef
                ((EscrowSvc.mainSuccess w (some b) (some e) st).2).ledger w.reference =
                some tx := by
              rw [mainSuccess_ledger_existing w (some b) (some e) st tx hf]
              exact hf
            rw [hrun1]
            exact round2_fix w st b e tx hfx hres2
        | none =>
          have hrun1 : (EscrowSvc.deliverSuccess w st).2 =
              (EscrowSvc.mainSuccess w (some b) (some e) st).2 := by
            unfold EscrowSvc.deliverSuccess
            rw [hP]
            simp only [hf]
          obtain ⟨t, hled, htr, hts⟩ := mainSuccess_ledger_fresh w (some b) (some e) st hf
          have hfx : EscrowSvc.findTxnByRef
              ((EscrowSvc.mainSuccess w (some b) (some e) st).2).ledger w.reference =
              some t := by
            rw [hled]
            exact findTxnByRef_append st.ledger t w.reference hf htr
          rw [hrun1]
          exact round2_fix w st b e t hfx hres2
      | none =>
        have hP := preUpsert_insert w st bid b hmeta hfb hfe
        set eP : EscrowSvc.EscrowDoc :=
          { id := st.nextId, bookingId := b.id,
            amount := EscrowSvc.jsOrI b.escrowAmount b.totalAmount,
            state := "pending", paymentGateway := w.gateway,
            gatewayReference := some w.reference, initiatedBy := none,
            reconciled := false } with heP
        set stP : EscrowSvc.EscrowSt :=
          { st with escrows := st.escrows ++ [eP], nextId := st.nextId + 1 } with hstP
        have hfbP : EscrowSvc.findBooking stP bid = some b := hfb
        have hfeP : EscrowSvc.findEscrowByBooking stP b.id = some eP := by
          show (st.escrows ++ [eP]).find? (fun x => decide (x.bookingId = b.id)) = some eP
          exact find?_append_singleton st.escrows eP _ hfe
            (decide_eq_true (show eP.bookingId = b.id by rw [heP]))
        have hEP : (stP.escrows.map (fun x => x.id)).Nodup := by
          show ((st.escrows ++ [eP]).map (fun x => x.id)).Nodup
          rw [List.map_append, List.nodup_append]
          refine ⟨hE, by simp, ?_⟩
          intro a ha hmem
          rcases List.mem_map.mp ha with ⟨x, hx, rfl⟩
          have hlt := hN x hx
          simp only [List.map_cons, List.map_nil, List.mem_singleton] at hmem
          have hEq2 : x.id = st.nextId := hmem
          omega
        have hBP : (stP.bookings.map (fun x => x.id)).Nodup := hB
        have hres2 := resolve_after_main_A w stP bid b eP hmeta hfbP hfeP hEP hBP
        cases hf : EscrowSvc.findTxnByRef st.ledger w.reference with
        | some tx =>
          have hfs : EscrowSvc.findTxnByRef stP.ledger w.reference = some tx := hf
          by_cases hs : tx.status = "success"
          · have hresP : EscrowSvc.resolveTarget w stP = (some b, some eP) := by
              rw [resolveTarget_meta_some w stP bid b hmeta hfbP, hfeP]
            have h1 : (EscrowSvc.deliverSuccess w st).2 = stP := by
              unfold EscrowSvc.deliverSuccess
              rw [hP]
              simp only [hfs]
              rw [if_pos hs]
            rw [h1]
            exact deliverSuccess_exit2 w stP tx hfs hs _ _ hresP (Or.inr (by simp))
          · have hrun1 : (EscrowSvc.deliverSuccess w st).2 =
                (EscrowSvc.mainSuccess w (some b) (some eP) stP).2 := by
              unfold EscrowSvc.deliverSuccess
              rw [hP]
              simp only [hfs]
              rw [if_neg hs]
            have hfx : EscrowSvc.findTxnByRef
                ((EscrowSvc.mainSuccess w (some b) (some eP) stP).2).ledger w.reference =
                some tx := by
              rw [mainSuccess_ledger_existing w (some b) (some eP) stP tx hfs]
              exact hfs
            rw [hrun1]
            exact round2_fix w stP b eP tx hfx hres2
        | none =>
          have hfs : EscrowSvc.findTxnByRef stP.ledger w.reference = none := hf
          have hrun1 : (EscrowSvc.deliverSuccess w st).2 =
              (EscrowSvc.mainSuccess w (some b) (some eP) stP).2 := by
            unfold EscrowSvc.deliverSuccess
            rw [hP]
            simp only [hfs]
          obtain ⟨t, hled, htr, hts⟩ := mainSuccess_ledger_fresh w (some b) (some eP) stP hfs
          have hfx : EscrowSvc.findTxnByRef
              ((EscrowSvc.mainSuccess w (some b) (some eP) stP).2).ledger w.reference =
              some t := by
            rw [hled]
            exact findTxnByRef_append stP.ledger t w.reference hfs htr
          rw [hrun1]
          exact round2_fix w stP b eP t hfx hres2
  | none =>
    cases hfe : EscrowSvc.findEscrowByRef st w.reference with
    | none =>
      have hres : EscrowSvc.resolveTarget w st = (none, none) :=
        resolveTarget_meta_none_noe w st hmeta hfe
      have hP : EscrowSvc.preUpsert w st = (none, none, st) :=
        preUpsert_no_insert w st none none hres (Or.inl rfl)
      cases hf : EscrowSvc.findTxnByRef st.ledger w.reference with
      | some tx =>
        by_cases hs : tx.status = "success"
        · have h1 : (EscrowSvc.deliverSuccess w st).2 = st := by
            unfold EscrowSvc.deliverSuccess
            rw [hP]
            simp only [hf]
            rw [if_pos hs]
          rw [h1]
          exact h1
        · have h1 : (EscrowSvc.deliverSuccess w st).2 = st := by
            unfold EscrowSvc.deliverSuccess
            rw [hP]
            simp only [hf]
            rw [if_neg hs]
            rw [mainSuccess_stable_nn w st tx hf]
          rw [h1]
          exact h1
      | none =>
        have hrun1 : (EscrowSvc.deliverSuccess w st).2 =
            (EscrowSvc.mainSuccess w none none st).2 := by
          unfold EscrowSvc.deliverSuccess
          rw [hP]
          simp only [hf]
        obtain ⟨t, hled, htr, hts⟩ := mainSuccess_ledger_fresh w none none st hf
        have hfx : EscrowSvc.findTxnByRef
            ((EscrowSvc.mainSuccess w none none st).2).ledger w.reference = some t := by
          rw [hled]
          exact findTxnByRef_append st.ledger t w.reference hf htr
        have hres2 : EscrowSvc.resolveTarget w
            ((EscrowSvc.mainSuccess w none none st).2) = (none, none) := by
          rw [resolveTarget_congr w st _ (by rw [mainSuccess_nn]) (by rw [mainSuccess_nn])]
          exact hres
        rw [hrun1]
        exact deliverSuccess_exit2 w _ t hfx hts none none hres2 (Or.inl rfl)
    | some e =>
      cases hfb : EscrowSvc.findBooking st e.bookingId with
      | some b =>
        have hres : EscrowSvc.resolveTarget w st = (some b, some e) := by
          rw [resolveTarget_meta_none_ref w st e hmeta hfe, hfb]
        have hP : EscrowSvc.preUpsert w st = (some b, some e, st) :=
          preUpsert_no_insert w st (some b) (some e) hres (Or.inr (by simp))
        have hres2 := resolve_after_main_Ap w st b e hmeta hfe hfb hE hB
        cases hf : EscrowSvc.findTxnByRef st.ledger w.reference with
        | some tx =>
          by_cases hs : tx.status = "success"
          · have h1 : (EscrowSvc.deliverSuccess w st).2 = st := by
              unfold EscrowSvc.deliverSuccess
              rw [hP]
              simp only [hf]
              rw [if_pos hs]
            rw [h1]
            exact h1
          · have hrun1 : (EscrowSvc.deliverSuccess w st).2 =
                (EscrowSvc.mainSuccess w (some b) (some e) st).2 := by
              unfold EscrowSvc.deliverSuccess
              rw [hP]
              simp only [hf]
              rw [if_neg hs]
            have hfx : EscrowSvc.findTxnByRef
                ((EscrowSvc.mainSuccess w (some b) (some e) st).2).ledger w.reference =
                some tx := by
              rw [mainSuccess_ledger_existing w (some b) (some e) st tx hf]
              exact hf
            rw [hrun1]
            exact round2_fix w st b e tx hfx hres2
        | none =>
          have hrun1 : (EscrowSvc.deliverSuccess w st).2 =
              (EscrowSvc.mainSuccess w (some b) (some e) st).2 := by
            unfold EscrowSvc.deliverSuccess
            rw [hP]
            simp only [hf]
          obtain ⟨t, hled, htr, hts⟩ := mainSuccess_ledger_fresh w (some b) (some e) st hf
          have hfx : EscrowSvc.findTxnByRef
              ((EscrowSvc.mainSuccess w (some b) (some e) st).2).ledger w.reference =
              some t := by
            rw [hled]
            exact findTxnByRef_append st.ledger t w.reference hf htr
          rw [hrun1]
          exact round2_fix w st b e t hfx hres2
      | none =>
        have hres : EscrowSvc.resolveTarget w st = (none, some e) := by
          rw [resolveTarget_meta_none_ref w st e hmeta hfe, hfb]
        have hP : EscrowSvc.preUpsert w st = (none, some e, st) :=
          preUpsert_no_insert w st none (some e) hres (Or.inl rfl)
        have hres2 := resolve_after_main_C w st e hmeta hfe hfb hE
        cases hf : EscrowSvc.findTxnByRef st.ledger w.reference with
        | some tx =>
          by_cases hs : tx.status = "success"
          · have h1 : (EscrowSvc.deliverSuccess w st).2 = st := by
              unfold EscrowSvc.deliverSuccess
              rw [hP]
              simp only [hf]
              rw [if_pos hs]
            rw [h1]
            exact h1
          · have hrun1 : (EscrowSvc.deliverSuccess w st).2 =
                (EscrowSvc.mainSuccess w none (some e) st).2 := by
              unfold EscrowSvc.deliverSuccess
              rw [hP]
              simp only [hf]
              rw [if_neg hs]
            have hfx : EscrowSvc.findTxnByRef
                ((EscrowSvc.mainSuccess w none (some e) st).2).ledger w.reference =
                some tx := by
              rw [mainSuccess_ledger_existing w none (some e) st tx hf]
              exact hf
            rw [hrun1]
            exact round2_fix_nb w st e tx hfx hres2
        | none =>
          have hrun1 : (EscrowSvc.deliverSuccess w st).2 =
              (EscrowSvc.mainSuccess w none (some e) st).2 := by
            unfold EscrowSvc.deliverSuccess
            rw [hP]
            simp only [hf]
          obtain ⟨t, hled, htr, hts⟩ := mainSuccess_ledger_fresh w none (some e) st hf
          have hfx : EscrowSvc.findTxnByRef
              ((EscrowSvc.mainSuccess w none (some e) st).2).ledger w.reference =
              some t := by
            rw [hled]
            exact findTxnByRef_append st.ledger t w.reference hf htr
          rw [hrun1]
          exact round2_fix_nb w st e t hfx hres2

/-- Witness for C1_amended at the init-then-webhook state. -/
theorem C1_amended_witness :
    (EscrowSvc.deliverSuccess Ex.w1 ((EscrowSvc.deliverSuccess Ex.w1 Ex.st1).2)).2 =
      (EscrowSvc.deliverSuccess Ex.w1 Ex.st1).2 ∧
    (EscrowSvc.findTxnByRef Ex.st1.ledger Ex.w1.reference = none →
      ((EscrowSvc.deliverSuccess Ex.w1 Ex.st1).2).ledger.countP
        (fun t => decide (t.reference = some Ex.w1.reference ∧ t.status = "success")) = 1) ∧
    (∀ tx : EscrowSvc.Txn,
      EscrowSvc.findTxnByRef Ex.st1.ledger Ex.w1.reference = some tx →
      ¬(tx.status = "success") →
      ((EscrowSvc.deliverSuccess Ex.w1 Ex.st1).2).ledger = Ex.st1.ledger) :=
  C1_amended Ex.w1 Ex.st1 (by decide) (by decide) (by decide)

/-- Witness for C2_releaseFunds_contract on a held escrow with a successful
payout. -/
theorem C2_releaseFunds_witness :
    (¬(Ex.esH.state = "held" ∨ Ex.esH.state = "pending" ∨ Ex.esH.state = "disputed") →
      EscrowSvc.releaseFunds Ex.stH 1 none "ok" "REL-1"
          { success := true, dataRef := some "PS-1" } =
        (.error "Escrow not in releasable state", Ex.stH)) ∧
    ((Ex.esH.state = "held" ∨ Ex.esH.state = "pending" ∨ Ex.esH.state = "disputed") →
      EscrowSvc.findTxnByRef Ex.stH.ledger (EscrowSvc.jsOrS (some "PS-1") "REL-1") = none →
      (EscrowSvc.releaseFunds Ex.stH 1 none "ok" "REL-1"
          { success := true, dataRef := some "PS-1" }).1 =
          .ok (true, EscrowSvc.jsOrS (some "PS-1") "REL-1") ∧
      (∃ tx : EscrowSvc.Txn,
          (EscrowSvc.releaseFunds Ex.stH 1 none "ok" "REL-1"
            { success := true, dataRef := some "PS-1" }).2.ledger =
            Ex.stH.ledger ++ [tx] ∧
          tx.ttype = "release" ∧
          tx.status = "success" ∧
          tx.reference = some (EscrowSvc.jsOrS (some "PS-1") "REL-1")) ∧
      (∀ x ∈ (EscrowSvc.releaseFunds Ex.stH 1 none "ok" "REL-1"
          { success := true, dataRef := some "PS-1" }).2.escrows,
          x.id = Ex.esH.id →
            x.state = "released" ∧ ¬(x.state = "held"))) :=
  C2_releaseFunds_contract Ex.stH 1 none "ok" "REL-1"
    { success := true, dataRef := some "PS-1" } Ex.bk1 Ex.esH rfl rfl

/-- Witness for C3_amended: success delivery, failure delivery, and a
reconciliation step on the refunded escrow. -/
theorem C3_amended_witness :
    (∀ x ∈ ((EscrowSvc.deliverSuccess Ex.w1 Ex.st1).2).escrows,
        x.id = Ex.es1.id → x.state = "held") ∧
    (∀ x ∈ ((EscrowSvc.deliverFailure Ex.w1 Ex.st1).2).escrows,
        x.id = Ex.es1.id → x.state = "cancelled") ∧
    (EscrowSvc.reconcileStep Ex.v3 Ex.es3).state = "held" :=
  C3_amended Ex.w1 Ex.st1 (some Ex.bk1) Ex.es1 rfl
    (by
      intro tx h
      have h2 : some Ex.tx1 = some tx := h
      injection h2 with h3
      subst h3
      decide)
    Ex.w1 Ex.st1 (some Ex.bk1) Ex.es1 rfl
    Ex.v3 Ex.es3 "R3" "success" rfl rfl rfl (by decide) (by decide)

/-- Witness for C9_amended on the dispute-free store. -/
theorem C9_amended_witness :
    (DisputeSvc.createDispute Ex.dst6 1 5 "no show" "d").2 = Ex.dst6 ∧
    (∀ d2, ¬((DisputeSvc.createDispute Ex.dst6 1 5 "no show" "d").1 = .ok d2)) ∧
    (∀ d ∈ (DisputeSvc.resolveDispute Ex.dst6 0 8 (some "split") (some 7) 0).2.disputes,
        DisputeSvc.disputeInv d) :=
  C9_amended Ex.dst6 1 5 "no show" "d" 0 8 (some "split") (some 7) 0
    (fun d hd => absurd hd (List.not_mem_nil d))

/-- Witness for C7_settlement_atomic at the held-escrow, grace-expired
state. -/
theorem C7_settlement_atomic_witness :
    (SettleSvc.settleEscrow Ex.day4 Ex.st7 1).2 = Ex.st7 ∧
    (∃ msg, (SettleSvc.settleEscrow Ex.day4 Ex.st7 1).1 = Except.error msg) :=
  ⟨(C7_settlement_atomic Ex.day4 Ex.st7 1).1,
   (C7_settlement_atomic Ex.day4 Ex.st7 1).2 Ex.sb7 Ex.se7 rfl rfl (by decide)⟩

/-- Witness for C10_write_once: a success write against the pending R1 entry. -/
theorem C10_write_once_witness :
    EscrowSvc.recordTransaction [Ex.tx1] ({ Ex.tx1 with status := "success" }) =
      (Ex.tx1, [Ex.tx1]) ∧
    ((EscrowSvc.deliverSuccess Ex.w1 Ex.st1).2).ledger = Ex.st1.ledger ∧
    EscrowSvc.findTxnByRef ((EscrowSvc.deliverSuccess Ex.w1 Ex.st1).2).ledger
      Ex.w1.reference = some Ex.tx1 :=
  C10_write_once [Ex.tx1] ({ Ex.tx1 with status := "success" }) Ex.tx1 "R1" rfl rfl
    Ex.w1 Ex.st1 Ex.tx1 rfl rfl
